import Mathlib

/-
  Verification development for the croc-pump-screener repository.

  Shallow embedding of the alert evaluation and dispatch pipeline:
  * utils/binance_api.py and utils/bybit_api.py (market data gateway with
    the shared-cache TTL logic; both files implement the identical
    get_price_change algorithm, embedded here once),
  * bot.py process_exchange / check_signals (signal evaluation,
    enrichment, quota-gated dispatch),
  * bot.py handle_menu (configuration state machine),
  * database.py activate_key / check_subscription.

  Python floats are modelled as rationals, time stamps as integers,
  raised exceptions as Except / Option results, and the SQLite tables as
  lists of records with SELECT/UPDATE transcribed to find? / map.
-/

namespace PumpScreener

/-! ## Market data gateway (utils/binance_api.py, utils/bybit_api.py) -/

/-- One candle: open, close and volume, as parsed from a kline row
(`float(kline[1])`, `float(kline[4])`, `float(kline[5])`). -/
structure Candle where
  openPrice : Rat
  closePrice : Rat
  volume : Rat
deriving DecidableEq

/-- Errors a get_price_change call can surface.  The Python code can raise
`ZeroDivisionError` (division by a zero open price) or a network/parse
exception (modelled as `dataUnavailable`).  The `invalidCandle` constructor
stands for the distinct InvalidCandle error named by the specification; the
embedded code never produces it, which is exactly what the theorems about
claim C2 establish. -/
inductive FetchError
  | zeroDivisionError
  | dataUnavailable
  | invalidCandle
deriving DecidableEq

/-- Decidable equality of Except results (not provided by core). -/
instance {eps alpha : Type} [DecidableEq eps] [DecidableEq alpha] :
    DecidableEq (Except eps alpha)
  | .error x, .error y =>
    if h : x = y then .isTrue (by rw [h]) else .isFalse (by simp [h])
  | .ok x, .ok y =>
    if h : x = y then .isTrue (by rw [h]) else .isFalse (by simp [h])
  | .error _, .ok _ => .isFalse (by simp)
  | .ok _, .error _ => .isFalse (by simp)

/-- The result dictionary built by get_price_change. -/
structure PriceData where
  price_change : Rat
  price_now : Rat
  volume_now : Rat
  volume_prev : Rat
  volume_change : Rat
deriving DecidableEq

/-- The arithmetic core of get_price_change on the two fetched candles
(`prev_kline, curr_kline = klines[0], klines[1]`).  A zero current open
price makes the Python expression `((close_now - open_now) / open_now) * 100`
raise `ZeroDivisionError`; `volume_change` falls back to `0.0` when
`volume_prev` is falsy (zero). -/
def compute_price_change (prev curr : Candle) : Except FetchError PriceData :=
  if curr.openPrice = 0 then
    .error .zeroDivisionError
  else
    let price_change := (curr.closePrice - curr.openPrice) / curr.openPrice * 100
    let volume_change :=
      if prev.volume = 0 then 0 else (curr.volume - prev.volume) / prev.volume * 100
    .ok ⟨price_change, curr.closePrice, curr.volume, prev.volume, volume_change⟩

/-- CACHE_TTL = 300 seconds (5 minutes). -/
def CACHE_TTL : Int := 300

/-- A PRICE_CACHE entry: `{"data": result, "timestamp": now}`. -/
structure CacheEntry where
  data : PriceData
  timestamp : Int
deriving DecidableEq

/-- State threaded through gateway calls: the (symbol, interval)-keyed
PRICE_CACHE plus a counter of outbound network requests, used to state the
zero-network-calls property. -/
structure GatewayState where
  cache : String × String → Option CacheEntry
  networkCalls : Nat

/-- The fetch path of get_price_change: perform the network request
(counted), compute the change, and store the result in the cache under the
current time.  A raised exception (network failure or zero open) propagates
before the cache write, leaving the cache untouched. -/
def fetch_and_cache (st : GatewayState) (klines : Except Unit (Candle × Candle))
    (symbol interval : String) (now : Int) :
    Except FetchError PriceData × GatewayState :=
  let calls := st.networkCalls + 1
  match klines with
  | .error _ => (.error .dataUnavailable, ⟨st.cache, calls⟩)
  | .ok (prev, curr) =>
    match compute_price_change prev curr with
    | .error e => (.error e, ⟨st.cache, calls⟩)
    | .ok d =>
      (.ok d,
       ⟨fun k => if k = (symbol, interval) then some ⟨d, now⟩ else st.cache k, calls⟩)

/-- get_price_change: cache-first lookup.  If a cached entry exists and
`now - cached["timestamp"] < CACHE_TTL`, the cached data is returned with no
network activity; otherwise the fetch path runs.  `klines` is the response
the network would deliver for this call. -/
def get_price_change (st : GatewayState) (klines : Except Unit (Candle × Candle))
    (symbol interval : String) (now : Int) :
    Except FetchError PriceData × GatewayState :=
  match st.cache (symbol, interval) with
  | some e =>
    if now - e.timestamp < CACHE_TTL then (.ok e.data, st)
    else fetch_and_cache st klines symbol interval now
  | none => fetch_and_cache st klines symbol interval now

/-! ## Signal evaluation and dispatch (bot.py process_exchange) -/

/-- Outcome of a single indicator provider call that is not internally
guarded in process_exchange: either a value or a raised exception. -/
inductive ProviderOutcome
  | ok (v : Rat)
  | raised
deriving DecidableEq

/-- Outcome of `bot.send_message`: success, a TelegramBadRequest whose text
contains "chat not found", another TelegramBadRequest, or any other
exception.  These are the three except branches of process_exchange. -/
inductive SendOutcome
  | success
  | chatNotFound
  | badRequest
  | otherError
deriving DecidableEq

/-- The outside world as seen while processing one symbol: the result the
price_change_func would deliver, the results of the five indicator
providers plus their fallbacks, and the delivery outcome.
`rsiPrimary` models `get_rsi` under its try/except (an exception becomes
None, so only an optional value remains); likewise for the funding-rate and
long/short primaries and for the free fallbacks, which catch internally and
return None.  `openInterest` and `orderbook` are the direct exchange calls,
which process_exchange guards with a single shared try/except, so a raised
exception is observable. -/
structure SymbolEnv where
  fetch : Except FetchError PriceData
  rsiPrimary : Option Rat
  rsiFallback : Option Rat
  fundingPrimary : Option Rat
  fundingFallback : Option Rat
  lsPrimary : Option (Rat × Rat)
  lsFallback : Option (Rat × Rat)
  openInterest : ProviderOutcome
  orderbook : ProviderOutcome
  send : SendOutcome

/-- Observable actions of one process_exchange run, in program order. -/
inductive Event
  | fetchPrice (symbol : String)
  | rsiPrimaryAttempt (symbol : String)
  | rsiFallbackAttempt (symbol : String)
  | fundingPrimaryAttempt (symbol : String)
  | fundingFallbackAttempt (symbol : String)
  | lsPrimaryAttempt (symbol : String)
  | lsFallbackAttempt (symbol : String)
  | openInterestAttempt (symbol : String)
  | orderbookAttempt (symbol : String)
  | send (symbol : String)
  | delivered (symbol : String)
  | persistCounter (field : String) (value : Nat)
deriving DecidableEq

/-- The enrichment values process_exchange ends up holding for a symbol
(rsi_value, funding_rate, long_short_ratio, open_interest_val,
orderbook_ratio_val). -/
structure Enrichment where
  rsi : Option Rat
  funding : Option Rat
  long_short : Option (Rat × Rat)
  open_interest : Option Rat
  orderbook : Option Rat
deriving DecidableEq

/-- RSI resolution (bot.py lines 860-865): try the metered get_rsi (an
exception yields None); exactly when the result is None, call the free
get_rsi_from_exchange fallback. -/
def rsiStep (e : SymbolEnv) (s : String) : Option Rat × List Event :=
  match e.rsiPrimary with
  | some v => (some v, [.rsiPrimaryAttempt s])
  | none => (e.rsiFallback, [.rsiPrimaryAttempt s, .rsiFallbackAttempt s])

/-- Funding-rate resolution (bot.py lines 867-872), same shape as RSI. -/
def fundingStep (e : SymbolEnv) (s : String) : Option Rat × List Event :=
  match e.fundingPrimary with
  | some v => (some v, [.fundingPrimaryAttempt s])
  | none => (e.fundingFallback, [.fundingPrimaryAttempt s, .fundingFallbackAttempt s])

/-- Long/short-ratio resolution (bot.py lines 874-879), same shape. -/
def lsStep (e : SymbolEnv) (s : String) : Option (Rat × Rat) × List Event :=
  match e.lsPrimary with
  | some v => (some v, [.lsPrimaryAttempt s])
  | none => (e.lsFallback, [.lsPrimaryAttempt s, .lsFallbackAttempt s])

/-- Open-interest and orderbook resolution (bot.py lines 881-896): two
direct exchange calls inside one shared try/except and with no fallback
providers.  An exception in the open-interest call leaves both values None
and skips the orderbook call; an exception in the orderbook call discards
the already fetched open-interest value and leaves both None. -/
def oiStep (e : SymbolEnv) (s : String) :
    (Option Rat × Option Rat) × List Event :=
  match e.openInterest with
  | .raised => ((none, none), [.openInterestAttempt s])
  | .ok v =>
    match e.orderbook with
    | .raised => ((none, none), [.openInterestAttempt s, .orderbookAttempt s])
    | .ok w => ((some v, some w), [.openInterestAttempt s, .orderbookAttempt s])

/-- The whole enrichment block of process_exchange (bot.py lines 859-896),
run for a symbol whose price fetch succeeded: RSI, funding rate, long/short
ratio, then open interest and orderbook, in program order. -/
def enrichSymbol (e : SymbolEnv) (s : String) : Enrichment × List Event :=
  (⟨(rsiStep e s).1, (fundingStep e s).1, (lsStep e s).1,
    (oiStep e s).1.1, (oiStep e s).1.2⟩,
   (rsiStep e s).2 ++ (fundingStep e s).2 ++ (lsStep e s).2 ++ (oiStep e s).2)

/-- Recognizes counter-persistence events. -/
def isPersistEvent : Event → Bool
  | .persistCounter _ _ => true
  | _ => false

/-- Recognizes confirmed-delivery events. -/
def isDeliveredEvent : Event → Bool
  | .delivered _ => true
  | _ => false

/-- Recognizes delivery-attempt events. -/
def isSendEvent : Event → Bool
  | .send _ => true
  | _ => false

/-- The payload handed to format_signal and then to the delivery call. -/
structure Signal where
  symbol : String
  is_pump : Bool
  exchange : String
  price_now : Rat
  price_change : Rat
  volume_now : Rat
  volume_change : Rat
  rsi : Option Rat
  funding : Option Rat
  long_short : Option (Rat × Rat)
  open_interest : Option Rat
  orderbook : Option Rat
deriving DecidableEq

/-- One rendered line of the alert message built by utils/formatters.py
format_signal (contents abstracted from string formatting). -/
inductive Line
  | header (symbol : String) (is_pump : Bool)
  | exchangeName (name : String)
  | price (v : Rat)
  | change (v : Rat)
  | volume (v w : Rat)
  | rsi (v : Rat)
  | funding (v : Rat)
  | longShort (l s : Rat)
  | openInterest (v : Rat)
  | orderbook (v : Rat)
  | refBinance
  | refBybit
deriving DecidableEq

/-- format_signal: the five base lines, then one optional line per
enrichment field present (absent fields produce no line), then the two
referral links. -/
def format_signal (sig : Signal) : List Line :=
  [Line.header sig.symbol sig.is_pump,
   Line.exchangeName sig.exchange,
   Line.price sig.price_now,
   Line.change sig.price_change,
   Line.volume sig.volume_now sig.volume_change]
  ++ (match sig.rsi with | some v => [Line.rsi v] | none => [])
  ++ (match sig.funding with | some v => [Line.funding v] | none => [])
  ++ (match sig.long_short with | some v => [Line.longShort v.1 v.2] | none => [])
  ++ (match sig.open_interest with | some v => [Line.openInterest v] | none => [])
  ++ (match sig.orderbook with | some v => [Line.orderbook v] | none => [])
  ++ [Line.refBinance, Line.refBybit]

/-- Parameters of one process_exchange call. -/
structure RunParams where
  exchange_name : String
  pump_on : Bool
  dump_on : Bool
  threshold : Rat
  limit : Nat
  counter_field : String
  envOf : String → SymbolEnv

/-- `should_send_pump = pump_on and price_change >= threshold`. -/
def shouldSendPump (p : RunParams) (d : PriceData) : Bool :=
  p.pump_on && decide (p.threshold ≤ d.price_change)

/-- `should_send_dump = dump_on and price_change <= -threshold`. -/
def shouldSendDump (p : RunParams) (d : PriceData) : Bool :=
  p.dump_on && decide (d.price_change ≤ -p.threshold)

/-- The Signal assembled for a qualifying symbol. -/
def mkSignal (p : RunParams) (s : String) (d : PriceData) (enr : Enrichment) :
    Signal :=
  ⟨s, shouldSendPump p d, p.exchange_name, d.price_now, d.price_change,
   d.volume_now, d.volume_change, enr.rsi, enr.funding, enr.long_short,
   enr.open_interest, enr.orderbook⟩

/-- Result of a process_exchange run: the returned signals_sent counter, the
event trace, and the signals that were actually delivered. -/
structure RunResult where
  signals_sent : Nat
  events : List Event
  deliveredSignals : List Signal
deriving DecidableEq

/-- bot.py process_exchange, one loop iteration per symbol:
stop as soon as `signals_sent >= limit`; fetch the price change (a raised
exception is logged and the symbol skipped); run the enrichment block
unconditionally; then classify, and for a qualifying symbol attempt
delivery.  Only a successful delivery increments the counter and persists it
(`update_user_setting`); any delivery failure returns immediately with the
counter unchanged. -/
def process_exchange (p : RunParams) : List String → Nat → RunResult
  | [], sent => ⟨sent, [], []⟩
  | s :: rest, sent =>
    if p.limit ≤ sent then ⟨sent, [], []⟩
    else
      match (p.envOf s).fetch with
      | .error _ =>
        let r := process_exchange p rest sent
        ⟨r.signals_sent, .fetchPrice s :: r.events, r.deliveredSignals⟩
      | .ok d =>
        let enr := enrichSymbol (p.envOf s) s
        if shouldSendPump p d || shouldSendDump p d then
          match (p.envOf s).send with
          | .success =>
            let r := process_exchange p rest (sent + 1)
            ⟨r.signals_sent,
             .fetchPrice s :: enr.2
               ++ .send s :: .delivered s
               :: .persistCounter p.counter_field (sent + 1) :: r.events,
             mkSignal p s d enr.1 :: r.deliveredSignals⟩
          | _ =>
            ⟨sent, .fetchPrice s :: enr.2 ++ [.send s], []⟩
        else
          let r := process_exchange p rest sent
          ⟨r.signals_sent, .fetchPrice s :: enr.2 ++ r.events, r.deliveredSignals⟩

/-! ## The per-user slice of one check_signals cycle (bot.py check_signals) -/

/-- The user_settings fields check_signals reads (after the
category-specific fallbacks have been applied). -/
structure CycleSettings where
  signals_enabled : Bool
  type_pump : Bool
  type_dump : Bool
  exchange_binance : Bool
  exchange_bybit : Bool
  percent_change_pump : Rat
  percent_change_dump : Rat
  signals_per_day_pump : Nat
  signals_per_day_dump : Nat

/-- The two per-category daily counters
(signals_sent_today_pump / signals_sent_today_dump). -/
structure CycleCounters where
  pump : Nat
  dump : Nat
deriving DecidableEq

/-- The outside world for the up-to-four process_exchange passes of one
cycle (Binance pump, Bybit pump, Binance dump, Bybit dump). -/
structure CycleEnv where
  binancePump : String → SymbolEnv
  bybitPump : String → SymbolEnv
  binanceDump : String → SymbolEnv
  bybitDump : String → SymbolEnv

/-- Parameters for a pump pass: pump_on=True, dump_on=False, the pump
threshold and limit, counter field signals_sent_today_pump. -/
def pumpParams (st : CycleSettings) (env : String → SymbolEnv)
    (ex : String) : RunParams :=
  ⟨ex, true, false, st.percent_change_pump, st.signals_per_day_pump,
   "signals_sent_today_pump", env⟩

/-- Parameters for a dump pass: pump_on=False, dump_on=True. -/
def dumpParams (st : CycleSettings) (env : String → SymbolEnv)
    (ex : String) : RunParams :=
  ⟨ex, false, true, st.percent_change_dump, st.signals_per_day_dump,
   "signals_sent_today_dump", env⟩

/-- One guarded pass: run process_exchange when the exchange/category gate
is open and the counter is still below the limit, else leave the counter
untouched. -/
def cyclePass (gate : Bool) (p : RunParams) (symbols : List String)
    (sent : Nat) : Nat × List RunResult :=
  if gate && decide (sent < p.limit) then
    let r := process_exchange p symbols sent
    (r.signals_sent, [r])
  else (sent, [])

/-- The body of check_signals for one entitled user with both counters in
hand: skip everything when signals are globally disabled, otherwise run the
pump passes (Binance then Bybit, threading the pump counter) and the dump
passes likewise, returning the final counters and the per-pass results. -/
def check_signals_user (symbols : List String) (st : CycleSettings)
    (env : CycleEnv) (cnt : CycleCounters) :
    CycleCounters × List RunResult :=
  if st.signals_enabled = false then (cnt, [])
  else
    let s1 := cyclePass (st.type_pump && st.exchange_binance)
      (pumpParams st env.binancePump "Binance") symbols cnt.pump
    let s2 := cyclePass (st.type_pump && st.exchange_bybit)
      (pumpParams st env.bybitPump "Bybit") symbols s1.1
    let s3 := cyclePass (st.type_dump && st.exchange_binance)
      (dumpParams st env.binanceDump "Binance") symbols cnt.dump
    let s4 := cyclePass (st.type_dump && st.exchange_bybit)
      (dumpParams st env.bybitDump "Bybit") symbols s3.1
    (⟨s2.1, s4.1⟩, s1.2 ++ s2.2 ++ s3.2 ++ s4.2)

/-! ## Entitlement and settings store (database.py) -/

/-- One row of the access_keys table.  Never-activated rows have NULL
username, user_id, activated_at and expires_at. -/
structure KeyRow where
  access_key : String
  duration_months : Nat
  username : Option String
  user_id : Option Int
  activated_at : Option Int
  expires_at : Option Int
  is_active : Bool
deriving DecidableEq

/-- The slice of a user_settings row the claims touch.  Columns not listed
(toggles, thresholds, counters) take their schema defaults on insert and
are written by neither activate_key nor check_subscription. -/
structure SettingsRow where
  username : String
  user_id : Int
  is_admin : Bool
deriving DecidableEq

/-- The keys.db database. -/
structure DB where
  access_keys : List KeyRow
  user_settings : List SettingsRow
deriving DecidableEq

/-- `INSERT INTO user_settings (username, user_id[, is_admin]) VALUES ...
ON CONFLICT(username) DO UPDATE SET user_id=? [, is_admin=1]`:
update every row with the username, or append a fresh row. -/
def upsert_settings (l : List SettingsRow) (u : String) (uid : Int)
    (admin : Bool) : List SettingsRow :=
  if l.any (fun r => r.username = u) then
    l.map (fun r =>
      if r.username = u then
        (if admin then ⟨r.username, uid, true⟩ else ⟨r.username, uid, r.is_admin⟩)
      else r)
  else l ++ [⟨u, uid, admin⟩]

/-- database.py activate_key.  `adminKey` is the configured
ADMIN_ACCESS_KEY, `now` the value of datetime.utcnow(), and `addMonths`
stands for `relativedelta(months=duration_months)` applied to `now`.
An admin key upserts an is_admin settings row.  Otherwise the key row is
looked up; a missing key fails.  An active key is re-activated exactly when
the stored username equals the submitted username (only the user_id
metadata is rewritten); any other submitter is rejected without mutation.
An inactive key is activated: the row gets the submitter's identity and the
computed expiry, and a settings row is upserted. -/
def activate_key (db : DB) (accessKey username : String) (uid : Int)
    (adminKey : String) (now : Int) (addMonths : Int → Nat → Int) :
    Bool × DB :=
  if accessKey = adminKey then
    (true, ⟨db.access_keys, upsert_settings db.user_settings username uid true⟩)
  else
    match db.access_keys.find? (fun r => r.access_key = accessKey) with
    | none => (false, db)
    | some row =>
      if row.is_active then
        if row.username = some username then
          (true,
           ⟨db.access_keys.map (fun r =>
              if r.access_key = accessKey then
                ⟨r.access_key, r.duration_months, r.username, some uid,
                 r.activated_at, r.expires_at, r.is_active⟩
              else r),
            db.user_settings.map (fun r =>
              if r.username = username then ⟨r.username, uid, r.is_admin⟩ else r)⟩)
        else (false, db)
      else
        (true,
         ⟨db.access_keys.map (fun r =>
            if r.access_key = accessKey then
              ⟨r.access_key, r.duration_months, some username, some uid,
               some now, some (addMonths now row.duration_months), true⟩
            else r),
          upsert_settings db.user_settings username uid false⟩)

/-- database.py check_subscription.  Looks up the settings row by numeric
user_id; admins short-circuit to True; otherwise the active key is looked
up by the stored username.  An expired key (`datetime.utcnow() >= expires_at`)
is persisted as inactive (`UPDATE access_keys SET is_active=0 WHERE
username=?`, which hits every key bound to that username) and the check
returns False.  A NULL expires_at on an active key would make
datetime.fromisoformat raise, modelled as `none`. -/
def check_subscription (db : DB) (uid : Int) (now : Int) :
    Option (Bool × DB) :=
  match db.user_settings.find? (fun r => r.user_id = uid) with
  | none => some (false, db)
  | some row =>
    if row.is_admin then some (true, db)
    else
      match db.access_keys.find?
          (fun k => k.username = some row.username && k.is_active) with
      | none => some (false, db)
      | some k =>
        match k.expires_at with
        | none => none
        | some exp =>
          if exp ≤ now then
            some (false,
              ⟨db.access_keys.map (fun r =>
                 if r.username = some row.username then
                   ⟨r.access_key, r.duration_months, r.username, r.user_id,
                    r.activated_at, r.expires_at, false⟩
                 else r),
               db.user_settings⟩)
          else some (true, db)

/-! ## Configuration state machine (bot.py handle_menu)

The per-user navigation state is the dict stored in `user_states`
(ignoring `last_menu_msg_id`, which only tracks message deletion, and the
`awaiting_key` activation flow, which precedes and is disjoint from menu
navigation).  Its possible contents are a `menu` tag and a pending
`setting` tag.  Each handled message answers with one reply keyboard; an
unmatched text produces no response, so the previously displayed keyboard
stays on screen. -/

/-- Values of `state["menu"]`. -/
inductive MenuTag
  | pump
  | dump
  | typeAlerts
  | settingsTag
  | tier
deriving DecidableEq

/-- Values of `state["setting"]`. -/
inductive SettingTag
  | timeframe
  | percentChange
  | signalsPerDay
deriving DecidableEq

/-- The navigation-relevant contents of the per-user state dict. -/
structure UserState where
  menu : Option MenuTag
  setting : Option SettingTag
deriving DecidableEq

/-- The reply keyboards bot.py can attach to a response.  `noKb` means the
message was not handled, so no response was produced. -/
inductive Kb
  | main
  | pump
  | dump
  | settings
  | typeAlerts
  | timeframe
  | price
  | signals
  | tier
  | noKb
deriving DecidableEq

/-- timeframe_options. -/
def timeframe_options : List String :=
  ["1m", "5m", "15m", "30m", "1h", "4h", "1d", "1w", "1M"]

/-- price_options. -/
def price_options : List String :=
  ["0.1%", "0.2%", "0.3%", "0.4%", "0.5%", "1%", "2%", "5%", "10%", "20%", "50%"]

/-- Python str.isdigit for the signals-per-day prompt: nonempty and all
characters digits. -/
def pyIsDigit (s : String) : Bool :=
  s.data ≠ [] && s.data.all Char.isDigit

/-- `kb = pump_menu_kb if state.get("menu") == "pump" else dump_menu_kb`:
the hardcoded two-way choice used inside the value-prompt block. -/
def backKbPD (m : Option MenuTag) : Kb :=
  if m = some MenuTag.pump then Kb.pump else Kb.dump

/-- The navigation portion of handle_menu after the value-prompt block fell
through (bot.py lines 500-787): main-menu buttons, submenu buttons,
toggles, and the top-level Back transition. -/
def mainNav (s : UserState) (text : String) : UserState × Kb :=
  if text = "📈 Pump Alerts" then (⟨some .pump, none⟩, .pump)
  else if text = "📉 Dump Alerts" then (⟨some .dump, none⟩, .dump)
  else if text = "⚙️ Settings" then (s, .settings)
  else if text = "💡 Type Alerts" then (⟨some .typeAlerts, none⟩, .typeAlerts)
  else if text = "👤 My Profile" then (s, .main)
  else if text = "🔓 Logout" then (⟨none, none⟩, .main)
  else if text = "⏱️ Timeframe" then
    (⟨some (s.menu.getD .pump), some .timeframe⟩, .timeframe)
  else if text = "📊 Price change" then
    (⟨some (s.menu.getD .pump), some .percentChange⟩, .price)
  else if text = "📡 Signals per day" then
    (⟨some (s.menu.getD .pump), some .signalsPerDay⟩, .signals)
  else if text = "Pump ON/OFF" then (s, .typeAlerts)
  else if text = "Dump ON/OFF" then (s, .typeAlerts)
  else if text = "🟡 Binance ON/OFF" then (s, .settings)
  else if text = "🔵 Bybit ON/OFF" then (s, .settings)
  else if text = "🔔 Signals ON/OFF" then (s, .settings)
  else if text = "🔙 Back" then
    match s.menu with
    | some .typeAlerts => (⟨some .settingsTag, none⟩, .settings)
    | some .pump => (⟨none, none⟩, .main)
    | some .dump => (⟨none, none⟩, .main)
    | some .tier => (⟨none, none⟩, .main)
    | _ => (s, .main)
  else (s, .noKb)

/-- handle_menu on one inbound text: first the value-prompt block (a valid
option persists the setting and returns to the pump or dump keyboard picked
by the stored menu tag; Back does the same without persisting), else fall
through to the navigation handlers. -/
def handle_menu (s : UserState) (text : String) : UserState × Kb :=
  match s.setting with
  | some st =>
    if st = .timeframe && decide (text ∈ timeframe_options) then
      (⟨s.menu, none⟩, backKbPD s.menu)
    else if st = .percentChange && decide (text ∈ price_options) then
      (⟨s.menu, none⟩, backKbPD s.menu)
    else if st = .signalsPerDay && pyIsDigit text then
      (⟨s.menu, none⟩, backKbPD s.menu)
    else if text = "🔙 Back" then
      (⟨s.menu, none⟩, backKbPD s.menu)
    else mainNav s text
  | none => mainNav s text

/-- One step of the displayed-keyboard trace: an unhandled message leaves
the previous keyboard on screen. -/
def fsmStep (c : Kb × UserState) (text : String) : Kb × UserState :=
  let r := handle_menu c.2 text
  (if r.2 = Kb.noKb then c.1 else r.2, r.1)

/-- The configuration the user sees right after a successful /start with an
active subscription: empty state, main menu keyboard. -/
def fsmInit : Kb × UserState := (Kb.main, ⟨none, none⟩)

/-- Run a list of inbound texts from the initial configuration. -/
def runTrace (inputs : List String) : Kb × UserState :=
  inputs.foldl fsmStep fsmInit

/-- The buttons physically present on each reply keyboard. -/
def kbButtons : Kb → List String
  | .main => ["📈 Pump Alerts", "📉 Dump Alerts", "⚙️ Settings",
      "👤 My Profile", "🔓 Logout"]
  | .pump => ["⏱️ Timeframe", "📊 Price change", "📡 Signals per day", "🔙 Back"]
  | .dump => ["⏱️ Timeframe", "📊 Price change", "📡 Signals per day", "🔙 Back"]
  | .settings => ["💡 Type Alerts", "🟡 Binance ON/OFF", "🔵 Bybit ON/OFF",
      "🔔 Signals ON/OFF", "🔙 Back"]
  | .typeAlerts => ["Pump ON/OFF", "Dump ON/OFF", "🔙 Back"]
  | .timeframe => timeframe_options ++ ["🔙 Back"]
  | .price => price_options ++ ["🔙 Back"]
  | .signals => (List.range 20).map (fun n => toString (n + 1)) ++ ["🔙 Back"]
  | .tier => ["🔙 Back"]
  | .noKb => []

/-- Nesting depth of each menu context in the keyboard tree. -/
def kbDepth : Kb → Nat
  | .main => 0
  | .pump => 1
  | .dump => 1
  | .settings => 1
  | .tier => 1
  | .typeAlerts => 2
  | .timeframe => 2
  | .price => 2
  | .signals => 2
  | .noKb => 0

/-- The unique parent menu from which each context is entered under
keyboard-button navigation (value prompts remember their origin in the
stored menu tag). -/
def parentKb : Kb → UserState → Kb
  | .pump, _ => .main
  | .dump, _ => .main
  | .settings, _ => .main
  | .tier, _ => .main
  | .typeAlerts, _ => .settings
  | .timeframe, st => backKbPD st.menu
  | .price, st => backKbPD st.menu
  | .signals, st => backKbPD st.menu
  | .main, _ => .main
  | .noKb, _ => .main

/-- The configurations reachable from `fsmInit` when the user only presses
the buttons of the currently displayed keyboard. -/
def buttonReachablePairs : List (Kb × UserState) :=
  [(Kb.main, ⟨none, none⟩),
   (Kb.main, ⟨some .settingsTag, none⟩),
   (Kb.pump, ⟨some .pump, none⟩),
   (Kb.dump, ⟨some .dump, none⟩),
   (Kb.settings, ⟨none, none⟩),
   (Kb.settings, ⟨some .settingsTag, none⟩),
   (Kb.typeAlerts, ⟨some .typeAlerts, none⟩),
   (Kb.timeframe, ⟨some .pump, some .timeframe⟩),
   (Kb.timeframe, ⟨some .dump, some .timeframe⟩),
   (Kb.price, ⟨some .pump, some .percentChange⟩),
   (Kb.price, ⟨some .dump, some .percentChange⟩),
   (Kb.signals, ⟨some .pump, some .signalsPerDay⟩),
   (Kb.signals, ⟨some .dump, some .signalsPerDay⟩)]

/-! ## Concrete fixtures for witnesses and counterexamples -/

/-- Price data of a +2% move. -/
def pumpData : PriceData := ⟨2, 100, 50, 40, 25⟩

/-- Price data of a flat move. -/
def flatData : PriceData := ⟨0, 100, 50, 40, 25⟩

/-- Price data of a -2% move. -/
def dumpData : PriceData := ⟨-2, 100, 50, 40, 25⟩

/-- +2% move, all indicators resolve on the primary, delivery succeeds. -/
def envDeliverOk : SymbolEnv :=
  ⟨.ok pumpData, some 70, none, some 1, none, some (60, 40), none,
   .ok 5, .ok 2, .success⟩

/-- +2% move, delivery fails with an exception that is not a chat-not-found
TelegramBadRequest (a transient failure in the claim's taxonomy). -/
def envSendTransient : SymbolEnv :=
  ⟨.ok pumpData, some 70, none, some 1, none, some (60, 40), none,
   .ok 5, .ok 2, .otherError⟩

/-- +2% move, delivery rejected with a chat-not-found TelegramBadRequest. -/
def envSendUnreachable : SymbolEnv :=
  ⟨.ok pumpData, some 70, none, some 1, none, some (60, 40), none,
   .ok 5, .ok 2, .chatNotFound⟩

/-- Flat move: below every positive threshold, delivery would succeed. -/
def envFlat : SymbolEnv :=
  ⟨.ok flatData, some 70, none, some 1, none, some (60, 40), none,
   .ok 5, .ok 2, .success⟩

/-- -2% move, delivery succeeds. -/
def envDump : SymbolEnv :=
  ⟨.ok dumpData, some 70, none, some 1, none, some (60, 40), none,
   .ok 5, .ok 2, .success⟩

/-- +2% move with every indicator provider failing: the metered primaries
and the free fallbacks all yield None and the open-interest call raises;
delivery succeeds. -/
def envAllIndicatorsFail : SymbolEnv :=
  ⟨.ok pumpData, none, none, none, none, none, none,
   .raised, .raised, .success⟩

/-- Pump-pass parameters: threshold 1%, the given daily limit, counter
field signals_sent_today_pump, every symbol seeing the same environment. -/
def fixedPumpParams (env : SymbolEnv) (limit : Nat) : RunParams :=
  ⟨"Binance", true, false, 1, limit, "signals_sent_today_pump", fun _ => env⟩

/-- Settings with everything enabled: thresholds 1%, daily limits 5. -/
def cycleSettingsOn : CycleSettings := ⟨true, true, true, true, true, 1, 1, 5, 5⟩

/-- Cycle environment where every pass has a qualifying move and working
delivery (+2% on the pump passes, -2% on the dump passes). -/
def cycleEnvDeliver : CycleEnv :=
  ⟨fun _ => envDeliverOk, fun _ => envDeliverOk,
   fun _ => envDump, fun _ => envDump⟩

/-- Cycle environment where both pump passes hit chat-not-found delivery
failures while the dump passes deliver. -/
def cycleEnvUnreachablePump : CycleEnv :=
  ⟨fun _ => envSendUnreachable, fun _ => envSendUnreachable,
   fun _ => envDump, fun _ => envDump⟩

/-- A cache entry stored at time 10. -/
def cachedEntry : CacheEntry := ⟨pumpData, 10⟩

/-- A gateway state whose cache holds `cachedEntry` for (BTCUSDT, 15m). -/
def cachedState : GatewayState :=
  ⟨fun k => if k = ("BTCUSDT", "15m") then some cachedEntry else none, 3⟩

/-- A kline response: previous candle (100, 101, 40), current (101, 103, 50). -/
def freshKlines : Except Unit (Candle × Candle) :=
  .ok (⟨100, 101, 40⟩, ⟨101, 103, 50⟩)

/-- The price data computed from `freshKlines` (fields written as the
gateway computes them). -/
def freshData : PriceData :=
  ⟨(103 - 101) / 101 * 100, 103, 50, 40, (50 - 40) / 40 * 100⟩

/-- Environment whose price fetch raises ZeroDivisionError. -/
def envFetchZeroDiv : SymbolEnv :=
  ⟨.error .zeroDivisionError, some 70, none, some 1, none, some (60, 40), none,
   .ok 5, .ok 2, .success⟩

/-- A stand-in for `relativedelta(months=m)`: 30 days per month. -/
def addMonthsModel : Int → Nat → Int := fun n m => n + 30 * (m : Int)

/-- An access key activated by username alice / user_id 1, expiring at 100. -/
def boundKey : KeyRow := ⟨"K", 1, some "alice", some 1, some 0, some 100, true⟩

/-- A database where `boundKey` is active and alice has a settings row. -/
def dbBound : DB := ⟨[boundKey], [⟨"alice", 1, false⟩]⟩

/-- A database with an admin settings row and no keys. -/
def dbAdmin : DB := ⟨[], [⟨"root", 7, true⟩]⟩

/-! ## Helper lemmas about the enrichment block -/

theorem rsiStep_no_persist (e : SymbolEnv) (s : String) (f : String) (v : Nat) :
    Event.persistCounter f v ∉ (rsiStep e s).2 := by
  unfold rsiStep
  cases e.rsiPrimary <;> simp

theorem fundingStep_no_persist (e : SymbolEnv) (s : String) (f : String) (v : Nat) :
    Event.persistCounter f v ∉ (fundingStep e s).2 := by
  unfold fundingStep
  cases e.fundingPrimary <;> simp

theorem lsStep_no_persist (e : SymbolEnv) (s : String) (f : String) (v : Nat) :
    Event.persistCounter f v ∉ (lsStep e s).2 := by
  unfold lsStep
  cases e.lsPrimary <;> simp

theorem oiStep_no_persist (e : SymbolEnv) (s : String) (f : String) (v : Nat) :
    Event.persistCounter f v ∉ (oiStep e s).2 := by
  unfold oiStep
  cases e.openInterest <;> try cases e.orderbook
  all_goals simp

theorem enrichSymbol_no_persist (e : SymbolEnv) (s : String) (f : String) (v : Nat) :
    Event.persistCounter f v ∉ (enrichSymbol e s).2 := by
  unfold enrichSymbol
  simp only [List.mem_append, not_or]
  exact ⟨⟨⟨rsiStep_no_persist e s f v, fundingStep_no_persist e s f v⟩,
    lsStep_no_persist e s f v⟩, oiStep_no_persist e s f v⟩

theorem rsiStep_countP_eq_zero (e : SymbolEnv) (s : String) (q : Event → Bool)
    (h1 : q (.rsiPrimaryAttempt s) = false) (h2 : q (.rsiFallbackAttempt s) = false) :
    (rsiStep e s).2.countP q = 0 := by
  unfold rsiStep
  cases e.rsiPrimary <;> simp [List.countP_cons, List.countP_nil, h1, h2]

theorem fundingStep_countP_eq_zero (e : SymbolEnv) (s : String) (q : Event → Bool)
    (h1 : q (.fundingPrimaryAttempt s) = false)
    (h2 : q (.fundingFallbackAttempt s) = false) :
    (fundingStep e s).2.countP q = 0 := by
  unfold fundingStep
  cases e.fundingPrimary <;> simp [List.countP_cons, List.countP_nil, h1, h2]

theorem lsStep_countP_eq_zero (e : SymbolEnv) (s : String) (q : Event → Bool)
    (h1 : q (.lsPrimaryAttempt s) = false) (h2 : q (.lsFallbackAttempt s) = false) :
    (lsStep e s).2.countP q = 0 := by
  unfold lsStep
  cases e.lsPrimary <;> simp [List.countP_cons, List.countP_nil, h1, h2]

theorem oiStep_countP_eq_zero (e : SymbolEnv) (s : String) (q : Event → Bool)
    (h1 : q (.openInterestAttempt s) = false) (h2 : q (.orderbookAttempt s) = false) :
    (oiStep e s).2.countP q = 0 := by
  unfold oiStep
  cases e.openInterest <;> try cases e.orderbook
  all_goals simp [List.countP_cons, List.countP_nil, h1, h2]

theorem enrichSymbol_countP_persist (e : SymbolEnv) (s : String) :
    (enrichSymbol e s).2.countP isPersistEvent = 0 := by
  unfold enrichSymbol
  simp only [List.countP_append]
  rw [rsiStep_countP_eq_zero e s isPersistEvent rfl rfl,
    fundingStep_countP_eq_zero e s isPersistEvent rfl rfl,
    lsStep_countP_eq_zero e s isPersistEvent rfl rfl,
    oiStep_countP_eq_zero e s isPersistEvent rfl rfl]

theorem enrichSymbol_countP_delivered (e : SymbolEnv) (s : String) :
    (enrichSymbol e s).2.countP isDeliveredEvent = 0 := by
  unfold enrichSymbol
  simp only [List.countP_append]
  rw [rsiStep_countP_eq_zero e s isDeliveredEvent rfl rfl,
    fundingStep_countP_eq_zero e s isDeliveredEvent rfl rfl,
    lsStep_countP_eq_zero e s isDeliveredEvent rfl rfl,
    oiStep_countP_eq_zero e s isDeliveredEvent rfl rfl]

theorem enrichSymbol_mem_rsiPrimary (e : SymbolEnv) (s : String) :
    Event.rsiPrimaryAttempt s ∈ (enrichSymbol e s).2 := by
  unfold enrichSymbol rsiStep
  cases e.rsiPrimary <;> simp

theorem enrichSymbol_mem_fundingPrimary (e : SymbolEnv) (s : String) :
    Event.fundingPrimaryAttempt s ∈ (enrichSymbol e s).2 := by
  unfold enrichSymbol fundingStep
  cases e.fundingPrimary <;> simp

theorem enrichSymbol_mem_lsPrimary (e : SymbolEnv) (s : String) :
    Event.lsPrimaryAttempt s ∈ (enrichSymbol e s).2 := by
  unfold enrichSymbol lsStep
  cases e.lsPrimary <;> simp

theorem enrichSymbol_mem_openInterest (e : SymbolEnv) (s : String) :
    Event.openInterestAttempt s ∈ (enrichSymbol e s).2 := by
  unfold enrichSymbol oiStep
  cases e.openInterest <;> try cases e.orderbook
  all_goals simp

/-! ## Helper lemmas about process_exchange -/

theorem process_exchange_nil (p : RunParams) (sent : Nat) :
    process_exchange p [] sent = ⟨sent, [], []⟩ := rfl

theorem process_exchange_at_limit (p : RunParams) (s : String)
    (rest : List String) (sent : Nat) (h : p.limit ≤ sent) :
    process_exchange p (s :: rest) sent = ⟨sent, [], []⟩ := by
  simp only [process_exchange, if_pos h]

theorem process_exchange_fetch_error (p : RunParams) (s : String)
    (rest : List String) (sent : Nat) (err : FetchError)
    (hlim : sent < p.limit) (hf : (p.envOf s).fetch = .error err) :
    process_exchange p (s :: rest) sent
      = ⟨(process_exchange p rest sent).signals_sent,
         .fetchPrice s :: (process_exchange p rest sent).events,
         (process_exchange p rest sent).deliveredSignals⟩ := by
  simp only [process_exchange, if_neg (by omega : ¬ p.limit ≤ sent)]
  rw [hf]

theorem process_exchange_no_signal (p : RunParams) (s : String)
    (rest : List String) (sent : Nat) (d : PriceData)
    (hlim : sent < p.limit) (hf : (p.envOf s).fetch = .ok d)
    (hc : (shouldSendPump p d || shouldSendDump p d) = false) :
    process_exchange p (s :: rest) sent
      = ⟨(process_exchange p rest sent).signals_sent,
         .fetchPrice s :: (enrichSymbol (p.envOf s) s).2
           ++ (process_exchange p rest sent).events,
         (process_exchange p rest sent).deliveredSignals⟩ := by
  simp only [process_exchange, if_neg (by omega : ¬ p.limit ≤ sent)]
  rw [hf]
  simp only [hc, Bool.false_eq_true, if_false]

theorem process_exchange_send_success (p : RunParams) (s : String)
    (rest : List String) (sent : Nat) (d : PriceData)
    (hlim : sent < p.limit) (hf : (p.envOf s).fetch = .ok d)
    (hc : (shouldSendPump p d || shouldSendDump p d) = true)
    (hs : (p.envOf s).send = .success) :
    process_exchange p (s :: rest) sent
      = ⟨(process_exchange p rest (sent + 1)).signals_sent,
         .fetchPrice s :: (enrichSymbol (p.envOf s) s).2
           ++ .send s :: .delivered s
           :: .persistCounter p.counter_field (sent + 1)
           :: (process_exchange p rest (sent + 1)).events,
         mkSignal p s d (enrichSymbol (p.envOf s) s).1
           :: (process_exchange p rest (sent + 1)).deliveredSignals⟩ := by
  simp only [process_exchange, if_neg (by omega : ¬ p.limit ≤ sent)]
  rw [hf]
  simp only [hc, if_pos]
  rw [hs]

theorem process_exchange_send_fail (p : RunParams) (s : String)
    (rest : List String) (sent : Nat) (d : PriceData)
    (hlim : sent < p.limit) (hf : (p.envOf s).fetch = .ok d)
    (hc : (shouldSendPump p d || shouldSendDump p d) = true)
    (hs : (p.envOf s).send ≠ .success) :
    process_exchange p (s :: rest) sent
      = ⟨sent, .fetchPrice s :: (enrichSymbol (p.envOf s) s).2 ++ [.send s], []⟩ := by
  have hns : ¬ p.limit ≤ sent := by omega
  cases hsend : (p.envOf s).send with
  | success => exact absurd hsend hs
  | chatNotFound => simp [process_exchange, hns, hf, hc, hsend]
  | badRequest => simp [process_exchange, hns, hf, hc, hsend]
  | otherError => simp [process_exchange, hns, hf, hc, hsend]

theorem process_exchange_mono (p : RunParams) (symbols : List String) :
    ∀ sent : Nat, sent ≤ (process_exchange p symbols sent).signals_sent := by
  induction symbols with
  | nil => intro sent; exact Nat.le_refl sent
  | cons s rest ih =>
    intro sent
    by_cases hlim : p.limit ≤ sent
    · rw [process_exchange_at_limit p s rest sent hlim]
    · replace hlim : sent < p.limit := by omega
      cases hf : (p.envOf s).fetch with
      | error err =>
        rw [process_exchange_fetch_error p s rest sent err hlim hf]
        exact ih sent
      | ok d =>
        by_cases hc : (shouldSendPump p d || shouldSendDump p d) = true
        · cases hs : (p.envOf s).send with
          | success =>
            rw [process_exchange_send_success p s rest sent d hlim hf hc hs]
            exact Nat.le_trans (Nat.le_succ sent) (ih (sent + 1))
          | chatNotFound =>
            rw [process_exchange_send_fail p s rest sent d hlim hf hc (by rw [hs]; simp)]
          | badRequest =>
            rw [process_exchange_send_fail p s rest sent d hlim hf hc (by rw [hs]; simp)]
          | otherError =>
            rw [process_exchange_send_fail p s rest sent d hlim hf hc (by rw [hs]; simp)]
        · rw [process_exchange_no_signal p s rest sent d hlim hf
            (Bool.not_eq_true _ ▸ hc)]
          exact ih sent

theorem process_exchange_le_limit (p : RunParams) (symbols : List String) :
    ∀ sent : Nat, sent ≤ p.limit →
      (process_exchange p symbols sent).signals_sent ≤ p.limit := by
  induction symbols with
  | nil => intro sent h; exact h
  | cons s rest ih =>
    intro sent h
    by_cases hlim : p.limit ≤ sent
    · rw [process_exchange_at_limit p s rest sent hlim]; exact h
    · replace hlim : sent < p.limit := by omega
      cases hf : (p.envOf s).fetch with
      | error err =>
        rw [process_exchange_fetch_error p s rest sent err hlim hf]
        exact ih sent h
      | ok d =>
        by_cases hc : (shouldSendPump p d || shouldSendDump p d) = true
        · cases hs : (p.envOf s).send with
          | success =>
            rw [process_exchange_send_success p s rest sent d hlim hf hc hs]
            exact ih (sent + 1) (by omega)
          | chatNotFound =>
            rw [process_exchange_send_fail p s rest sent d hlim hf hc (by rw [hs]; simp)]
            exact h
          | badRequest =>
            rw [process_exchange_send_fail p s rest sent d hlim hf hc (by rw [hs]; simp)]
            exact h
          | otherError =>
            rw [process_exchange_send_fail p s rest sent d hlim hf hc (by rw [hs]; simp)]
            exact h
        · rw [process_exchange_no_signal p s rest sent d hlim hf
            (Bool.not_eq_true _ ▸ hc)]
          exact ih sent h

theorem process_exchange_final_eq (p : RunParams) (symbols : List String) :
    ∀ sent : Nat,
      (process_exchange p symbols sent).signals_sent
        = sent + (process_exchange p symbols sent).deliveredSignals.length := by
  induction symbols with
  | nil => intro sent; simp [process_exchange_nil]
  | cons s rest ih =>
    intro sent
    by_cases hlim : p.limit ≤ sent
    · rw [process_exchange_at_limit p s rest sent hlim]; simp
    · replace hlim : sent < p.limit := by omega
      cases hf : (p.envOf s).fetch with
      | error err =>
        rw [process_exchange_fetch_error p s rest sent err hlim hf]
        exact ih sent
      | ok d =>
        by_cases hc : (shouldSendPump p d || shouldSendDump p d) = true
        · cases hs : (p.envOf s).send with
          | success =>
            rw [process_exchange_send_success p s rest sent d hlim hf hc hs]
            have h2 := ih (sent + 1)
            simp only [List.length_cons]
            omega
          | chatNotFound =>
            rw [process_exchange_send_fail p s rest sent d hlim hf hc (by rw [hs]; simp)]
            simp
          | badRequest =>
            rw [process_exchange_send_fail p s rest sent d hlim hf hc (by rw [hs]; simp)]
            simp
          | otherError =>
            rw [process_exchange_send_fail p s rest sent d hlim hf hc (by rw [hs]; simp)]
            simp
        · rw [process_exchange_no_signal p s rest sent d hlim hf
            (Bool.not_eq_true _ ▸ hc)]
          exact ih sent

theorem process_exchange_persist_le (p : RunParams) (symbols : List String) :
    ∀ sent : Nat, sent ≤ p.limit → ∀ f v,
      Event.persistCounter f v ∈ (process_exchange p symbols sent).events →
      v ≤ p.limit := by
  induction symbols with
  | nil =>
    intro sent h f v hv
    rw [process_exchange_nil] at hv
    simp at hv
  | cons s rest ih =>
    intro sent h f v hv
    by_cases hlim : p.limit ≤ sent
    · rw [process_exchange_at_limit p s rest sent hlim] at hv
      simp at hv
    · replace hlim : sent < p.limit := by omega
      cases hf : (p.envOf s).fetch with
      | error err =>
        rw [process_exchange_fetch_error p s rest sent err hlim hf] at hv
        simp only [List.mem_cons] at hv
        rcases hv with h1 | hv
        · exact absurd h1 (by simp)
        · exact ih sent h f v hv
      | ok d =>
        by_cases hc : (shouldSendPump p d || shouldSendDump p d) = true
        · cases hs : (p.envOf s).send with
          | success =>
            rw [process_exchange_send_success p s rest sent d hlim hf hc hs] at hv
            simp only [List.mem_cons, List.mem_append] at hv
            rcases hv with (h1 | h2) | (h3 | h4 | h5 | hv)
            · exact absurd h1 (by simp)
            · exact absurd h2 (enrichSymbol_no_persist (p.envOf s) s f v)
            · exact absurd h3 (by simp)
            · exact absurd h4 (by simp)
            · injection h5 with hf5 hv5
              omega
            · exact ih (sent + 1) (by omega) f v hv
          | chatNotFound =>
            rw [process_exchange_send_fail p s rest sent d hlim hf hc (by rw [hs]; simp)] at hv
            simp only [List.mem_cons, List.mem_append, List.mem_singleton] at hv
            rcases hv with (h1 | h2) | h3
            · exact absurd h1 (by simp)
            · exact absurd h2 (enrichSymbol_no_persist (p.envOf s) s f v)
            · simp at h3
          | badRequest =>
            rw [process_exchange_send_fail p s rest sent d hlim hf hc (by rw [hs]; simp)] at hv
            simp only [List.mem_cons, List.mem_append, List.mem_singleton] at hv
            rcases hv with (h1 | h2) | h3
            · exact absurd h1 (by simp)
            · exact absurd h2 (enrichSymbol_no_persist (p.envOf s) s f v)
            · simp at h3
          | otherError =>
            rw [process_exchange_send_fail p s rest sent d hlim hf hc (by rw [hs]; simp)] at hv
            simp only [List.mem_cons, List.mem_append, List.mem_singleton] at hv
            rcases hv with (h1 | h2) | h3
            · exact absurd h1 (by simp)
            · exact absurd h2 (enrichSymbol_no_persist (p.envOf s) s f v)
            · simp at h3
        · rw [process_exchange_no_signal p s rest sent d hlim hf
            (Bool.not_eq_true _ ▸ hc)] at hv
          simp only [List.mem_cons, List.mem_append] at hv
          rcases hv with (h1 | h2) | hv
          · exact absurd h1 (by simp)
          · exact absurd h2 (enrichSymbol_no_persist (p.envOf s) s f v)
          · exact ih sent h f v hv

theorem process_exchange_persist_eq_delivered (p : RunParams)
    (symbols : List String) :
    ∀ sent : Nat,
      (process_exchange p symbols sent).events.countP isPersistEvent
        = (process_exchange p symbols sent).events.countP isDeliveredEvent := by
  induction symbols with
  | nil => intro sent; rfl
  | cons s rest ih =>
    intro sent
    by_cases hlim : p.limit ≤ sent
    · rw [process_exchange_at_limit p s rest sent hlim]
      rfl
    · replace hlim : sent < p.limit := by omega
      cases hf : (p.envOf s).fetch with
      | error err =>
        rw [process_exchange_fetch_error p s rest sent err hlim hf]
        have h2 := ih sent
        simp [List.countP_cons, isPersistEvent, isDeliveredEvent] <;> omega
      | ok d =>
        by_cases hc : (shouldSendPump p d || shouldSendDump p d) = true
        · cases hs : (p.envOf s).send with
          | success =>
            rw [process_exchange_send_success p s rest sent d hlim hf hc hs]
            have h2 := ih (sent + 1)
            simp [List.countP_cons, List.countP_append,
              enrichSymbol_countP_persist, enrichSymbol_countP_delivered,
              isPersistEvent, isDeliveredEvent] <;> omega
          | chatNotFound =>
            rw [process_exchange_send_fail p s rest sent d hlim hf hc (by rw [hs]; simp)]
            simp [List.countP_cons, List.countP_append,
              enrichSymbol_countP_persist, enrichSymbol_countP_delivered,
              isPersistEvent, isDeliveredEvent] <;> omega
          | badRequest =>
            rw [process_exchange_send_fail p s rest sent d hlim hf hc (by rw [hs]; simp)]
            simp [List.countP_cons, List.countP_append,
              enrichSymbol_countP_persist, enrichSymbol_countP_delivered,
              isPersistEvent, isDeliveredEvent] <;> omega
          | otherError =>
            rw [process_exchange_send_fail p s rest sent d hlim hf hc (by rw [hs]; simp)]
            simp [List.countP_cons, List.countP_append,
              enrichSymbol_countP_persist, enrichSymbol_countP_delivered,
              isPersistEvent, isDeliveredEvent] <;> omega
        · rw [process_exchange_no_signal p s rest sent d hlim hf
            (Bool.not_eq_true _ ▸ hc)]
          have h2 := ih sent
          simp [List.countP_cons, List.countP_append,
            enrichSymbol_countP_persist, enrichSymbol_countP_delivered,
            isPersistEvent, isDeliveredEvent] <;> omega

theorem process_exchange_delivered_count (p : RunParams) (symbols : List String) :
    ∀ sent : Nat,
      (process_exchange p symbols sent).events.countP isDeliveredEvent
        = (process_exchange p symbols sent).deliveredSignals.length := by
  induction symbols with
  | nil => intro sent; rfl
  | cons s rest ih =>
    intro sent
    by_cases hlim : p.limit ≤ sent
    · rw [process_exchange_at_limit p s rest sent hlim]
      rfl
    · replace hlim : sent < p.limit := by omega
      cases hf : (p.envOf s).fetch with
      | error err =>
        rw [process_exchange_fetch_error p s rest sent err hlim hf]
        have h2 := ih sent
        simp [List.countP_cons, isDeliveredEvent] <;> omega
      | ok d =>
        by_cases hc : (shouldSendPump p d || shouldSendDump p d) = true
        · cases hs : (p.envOf s).send with
          | success =>
            rw [process_exchange_send_success p s rest sent d hlim hf hc hs]
            have h2 := ih (sent + 1)
            simp [List.countP_cons, List.countP_append,
              enrichSymbol_countP_delivered, List.length_cons,
              isDeliveredEvent] <;> omega
          | chatNotFound =>
            rw [process_exchange_send_fail p s rest sent d hlim hf hc (by rw [hs]; simp)]
            simp [List.countP_cons, List.countP_append,
              enrichSymbol_countP_delivered, isDeliveredEvent] <;> omega
          | badRequest =>
            rw [process_exchange_send_fail p s rest sent d hlim hf hc (by rw [hs]; simp)]
            simp [List.countP_cons, List.countP_append,
              enrichSymbol_countP_delivered, isDeliveredEvent] <;> omega
          | otherError =>
            rw [process_exchange_send_fail p s rest sent d hlim hf hc (by rw [hs]; simp)]
            simp [List.countP_cons, List.countP_append,
              enrichSymbol_countP_delivered, isDeliveredEvent] <;> omega
        · rw [process_exchange_no_signal p s rest sent d hlim hf
            (Bool.not_eq_true _ ▸ hc)]
          have h2 := ih sent
          simp [List.countP_cons, List.countP_append,
            enrichSymbol_countP_delivered, isDeliveredEvent] <;> omega

/-! ## Lemmas about the gateway's error behavior -/

theorem compute_price_change_zero_open (prev curr : Candle)
    (h : curr.openPrice = 0) :
    compute_price_change prev curr = .error .zeroDivisionError := by
  unfold compute_price_change
  rw [if_pos h]

theorem compute_price_change_ne_invalid (prev curr : Candle) :
    compute_price_change prev curr ≠ .error .invalidCandle := by
  unfold compute_price_change
  split <;> simp

theorem fetch_and_cache_ne_invalid (st : GatewayState)
    (klines : Except Unit (Candle × Candle)) (s i : String) (now : Int) :
    (fetch_and_cache st klines s i now).1 ≠ .error .invalidCandle := by
  cases klines with
  | error u => simp [fetch_and_cache]
  | ok pc =>
    obtain ⟨prev, curr⟩ := pc
    have hne := compute_price_change_ne_invalid prev curr
    cases hcp : compute_price_change prev curr with
    | error er =>
      rw [hcp] at hne
      simpa [fetch_and_cache, hcp] using hne
    | ok d =>
      simp [fetch_and_cache, hcp]

/-- Claim C7: within the 300-second TTL, a second get_price_change call for
the same (symbol, timeframe) returns the cached result and performs zero
network calls; a call at or after TTL expiry performs a fresh network fetch
and replaces the cache entry with the new data under the new timestamp. -/
theorem C7_cache_ttl
    (st : GatewayState) (klines : Except Unit (Candle × Candle))
    (s i : String) (now : Int) (e : CacheEntry)
    (hhit : st.cache (s, i) = some e) :
    (now - e.timestamp < CACHE_TTL →
       get_price_change st klines s i now = (.ok e.data, st)) ∧
    (CACHE_TTL ≤ now - e.timestamp →
       (get_price_change st klines s i now).2.networkCalls = st.networkCalls + 1 ∧
       ∀ prev curr d, klines = .ok (prev, curr) →
         compute_price_change prev curr = .ok d →
         (get_price_change st klines s i now).1 = .ok d ∧
         (get_price_change st klines s i now).2.cache (s, i) = some ⟨d, now⟩) := by
  have hfresh : ¬ (now - e.timestamp < CACHE_TTL) →
      get_price_change st klines s i now = fetch_and_cache st klines s i now := by
    intro hnot
    simp [get_price_change, hhit, hnot]
  refine ⟨?_, ?_⟩
  · intro h
    simp [get_price_change, hhit, h]
  · intro h
    have hnot : ¬ (now - e.timestamp < CACHE_TTL) := by omega
    rw [hfresh hnot]
    refine ⟨?_, ?_⟩
    · cases klines with
      | error u => simp [fetch_and_cache]
      | ok pc =>
        obtain ⟨prev, curr⟩ := pc
        cases hcp : compute_price_change prev curr with
        | error er => simp [fetch_and_cache, hcp]
        | ok d => simp [fetch_and_cache, hcp]
    · intro prev curr d hk hcp
      subst hk
      refine ⟨?_, ?_⟩ <;> simp [fetch_and_cache, hcp]

/-- Witness for C7_cache_ttl: the fixture cache was written at time 10; a
call at time 100 (inside the TTL) returns the cached data with the state
untouched; a call at time 400 (after expiry) performs one network request,
returns the freshly computed data and replaces the cache entry. -/
theorem C7_witness :
    (get_price_change cachedState freshKlines "BTCUSDT" "15m" 100
        = (.ok cachedEntry.data, cachedState)) ∧
    ((get_price_change cachedState freshKlines "BTCUSDT" "15m" 400).2.networkCalls
        = cachedState.networkCalls + 1) ∧
    ((get_price_change cachedState freshKlines "BTCUSDT" "15m" 400).1
        = .ok freshData) ∧
    ((get_price_change cachedState freshKlines "BTCUSDT" "15m" 400).2.cache
        ("BTCUSDT", "15m") = some ⟨freshData, 400⟩) := by
  have h100 := C7_cache_ttl cachedState freshKlines "BTCUSDT" "15m" 100
    cachedEntry (by decide)
  have h400 := C7_cache_ttl cachedState freshKlines "BTCUSDT" "15m" 400
    cachedEntry (by decide)
  refine ⟨h100.1 (by decide), (h400.2 (by decide)).1, ?_, ?_⟩
  · exact ((h400.2 (by decide)).2 ⟨100, 101, 40⟩ ⟨101, 103, 50⟩ freshData rfl rfl).1
  · exact ((h400.2 (by decide)).2 ⟨100, 101, 40⟩ ⟨101, 103, 50⟩ freshData rfl rfl).2

/-- Claim C2 counterexample: a get_price_change call on a cache miss whose
current candle has a zero open price fails with the raw ZeroDivisionError,
which is not the distinct InvalidCandle error the claim requires. -/
theorem C2_counterexample :
    ((get_price_change ⟨fun _ => none, 0⟩ (.ok (⟨1, 1, 1⟩, ⟨0, 5, 1⟩))
        "BTCUSDT" "15m" 0).1 = .error .zeroDivisionError) ∧
    (Except.error FetchError.zeroDivisionError
        ≠ (Except.error FetchError.invalidCandle : Except FetchError PriceData)) :=
  ⟨rfl, by decide⟩

/-- Claim C2 (amended): a get_price_change request whose current candle has
a zero open price fails with a raw ZeroDivisionError — no distinct
InvalidCandle error exists anywhere in the gateway, which never produces
one — and the evaluation loop's catch-all handler skips the failing symbol
and continues with the remaining symbols. -/
theorem C2_amended :
    (∀ (st : GatewayState) (klines : Except Unit (Candle × Candle))
       (s i : String) (now : Int) (prev curr : Candle),
       st.cache (s, i) = none → klines = .ok (prev, curr) →
       curr.openPrice = 0 →
       (get_price_change st klines s i now).1 = .error .zeroDivisionError) ∧
    (∀ (st : GatewayState) (klines : Except Unit (Candle × Candle))
       (s i : String) (now : Int),
       (get_price_change st klines s i now).1 ≠ .error .invalidCandle) ∧
    (∀ (p : RunParams) (s : String) (rest : List String) (sent : Nat)
       (err : FetchError), sent < p.limit → (p.envOf s).fetch = .error err →
       process_exchange p (s :: rest) sent
         = ⟨(process_exchange p rest sent).signals_sent,
            .fetchPrice s :: (process_exchange p rest sent).events,
            (process_exchange p rest sent).deliveredSignals⟩) := by
  refine ⟨?_, ?_, ?_⟩
  · intro st klines s i now prev curr hmiss hk hopen
    subst hk
    simp [get_price_change, hmiss, fetch_and_cache,
      compute_price_change_zero_open prev curr hopen]
  · intro st klines s i now
    cases hcache : st.cache (s, i) with
    | none =>
      have hfc := fetch_and_cache_ne_invalid st klines s i now
      simpa [get_price_change, hcache] using hfc
    | some e =>
      by_cases ht : now - e.timestamp < CACHE_TTL
      · simp [get_price_change, hcache, ht]
      · have hfc := fetch_and_cache_ne_invalid st klines s i now
        simpa [get_price_change, hcache, ht] using hfc
  · intro p s rest sent err hlim hf
    exact process_exchange_fetch_error p s rest sent err hlim hf

/-- Witness for C2_amended: a concrete zero-open request yields the
ZeroDivisionError, a concrete request is not an InvalidCandle failure, and
a one-symbol run whose fetch raises skips the symbol with the counter
unchanged. -/
theorem C2_witness :
    ((get_price_change ⟨fun _ => none, 0⟩ (.ok (⟨1, 1, 1⟩, ⟨0, 5, 1⟩))
        "XRPUSDT" "15m" 0).1 = .error .zeroDivisionError) ∧
    ((get_price_change cachedState freshKlines "BTCUSDT" "15m" 100).1
        ≠ .error .invalidCandle) ∧
    (process_exchange (fixedPumpParams envFetchZeroDiv 5) ["AAVEUSDT"] 0
       = ⟨0, [.fetchPrice "AAVEUSDT"], []⟩) := by
  refine ⟨?_, ?_, ?_⟩
  · exact C2_amended.1 ⟨fun _ => none, 0⟩ (.ok (⟨1, 1, 1⟩, ⟨0, 5, 1⟩))
      "XRPUSDT" "15m" 0 ⟨1, 1, 1⟩ ⟨0, 5, 1⟩ rfl rfl rfl
  · exact C2_amended.2.1 cachedState freshKlines "BTCUSDT" "15m" 100
  · have h := C2_amended.2.2 (fixedPumpParams envFetchZeroDiv 5) "AAVEUSDT" [] 0
      .zeroDivisionError (by decide) rfl
    rw [h]
    rfl

/-! ## Cycle-level helper lemmas -/

theorem cyclePass_mono (gate : Bool) (p : RunParams) (symbols : List String)
    (sent : Nat) : sent ≤ (cyclePass gate p symbols sent).1 := by
  unfold cyclePass
  split
  · exact process_exchange_mono p symbols sent
  · exact Nat.le_refl sent

theorem cyclePass_le_limit (gate : Bool) (p : RunParams) (symbols : List String)
    (sent : Nat) (h : sent ≤ p.limit) :
    (cyclePass gate p symbols sent).1 ≤ p.limit := by
  unfold cyclePass
  split
  · exact process_exchange_le_limit p symbols sent h
  · exact h

/-! ## Claim C1 -/

/-- Claim C1: the per-category dispatched count never exceeds the daily
quota — a run starting within the limit ends within it and every persisted
counter value stays within it; the counter grows by exactly the number of
confirmed deliveries and every counter persistence matches one confirmed
delivery, so a failed delivery attempt never increments or persists the
counter; the two per-category counters keep their bounds across a whole
check_signals cycle. -/
theorem C1_quota_invariant :
    (∀ (p : RunParams) (symbols : List String) (sent : Nat), sent ≤ p.limit →
       (process_exchange p symbols sent).signals_sent ≤ p.limit) ∧
    (∀ (p : RunParams) (symbols : List String) (sent : Nat), sent ≤ p.limit →
       ∀ f v, Event.persistCounter f v ∈ (process_exchange p symbols sent).events →
         v ≤ p.limit) ∧
    (∀ (p : RunParams) (symbols : List String) (sent : Nat),
       (process_exchange p symbols sent).signals_sent
         = sent + (process_exchange p symbols sent).events.countP isDeliveredEvent) ∧
    (∀ (p : RunParams) (symbols : List String) (sent : Nat),
       (process_exchange p symbols sent).events.countP isPersistEvent
         = (process_exchange p symbols sent).events.countP isDeliveredEvent) ∧
    (∀ (p : RunParams) (s : String) (rest : List String) (sent : Nat)
       (d : PriceData), sent < p.limit → (p.envOf s).fetch = .ok d →
       (shouldSendPump p d || shouldSendDump p d) = true →
       (p.envOf s).send ≠ .success →
       (process_exchange p (s :: rest) sent).signals_sent = sent) ∧
    (∀ (symbols : List String) (st : CycleSettings) (env : CycleEnv)
       (cnt : CycleCounters),
       cnt.pump ≤ st.signals_per_day_pump →
       cnt.dump ≤ st.signals_per_day_dump →
       (check_signals_user symbols st env cnt).1.pump ≤ st.signals_per_day_pump ∧
       (check_signals_user symbols st env cnt).1.dump ≤ st.signals_per_day_dump) := by
  refine ⟨process_exchange_le_limit, process_exchange_persist_le, ?_, ?_, ?_, ?_⟩
  · intro p symbols sent
    rw [process_exchange_delivered_count p symbols sent]
    exact process_exchange_final_eq p symbols sent
  · exact process_exchange_persist_eq_delivered
  · intro p s rest sent d hlim hf hc hs
    rw [process_exchange_send_fail p s rest sent d hlim hf hc hs]
  · intro symbols st env cnt hp hd
    unfold check_signals_user
    split
    · exact ⟨hp, hd⟩
    · exact ⟨cyclePass_le_limit _ _ _ _ (cyclePass_le_limit _ _ _ _ hp),
        cyclePass_le_limit _ _ _ _ (cyclePass_le_limit _ _ _ _ hd)⟩

/-- Witness for C1_quota_invariant: with a quota of 1 and two qualifying
symbols the final counter stays at 1; a transient delivery failure leaves
the counter at 0; and a cycle starting from a full pump counter keeps it
within the quota. -/
theorem C1_witness :
    ((process_exchange (fixedPumpParams envDeliverOk 1) ["AAVEUSDT", "ADAUSDT"] 0).signals_sent
        ≤ 1) ∧
    ((process_exchange (fixedPumpParams envSendTransient 5) ["AAVEUSDT"] 0).signals_sent
        = 0) ∧
    ((check_signals_user ["AAVEUSDT"] cycleSettingsOn cycleEnvDeliver ⟨5, 0⟩).1.pump
        ≤ 5) := by
  refine ⟨?_, ?_, ?_⟩
  · exact C1_quota_invariant.1 (fixedPumpParams envDeliverOk 1)
      ["AAVEUSDT", "ADAUSDT"] 0 (by omega)
  · exact C1_quota_invariant.2.2.2.2.1 (fixedPumpParams envSendTransient 5)
      "AAVEUSDT" [] 0 pumpData (by decide) rfl (by decide) (by decide)
  · exact (C1_quota_invariant.2.2.2.2.2 ["AAVEUSDT"] cycleSettingsOn
      cycleEnvDeliver ⟨5, 0⟩ (by decide) (by decide)).1

/-! ## Claim C3 -/

/-- Claim C3 evaluation at the failing input: the per-category counters are
monotone across every cycle — nothing in the evaluation loop ever lowers
them, and in particular nothing resets them to zero — and with both
counters already at their quotas a full cycle is a no-op (no pass runs, no
signal is dispatched, the counters remain full), which is what every later
cycle of every later UTC day sees, since the code has no reset operation
(the last_reset column is never read or written). -/
theorem C3_no_reset_evaluation :
    (∀ (symbols : List String) (st : CycleSettings) (env : CycleEnv)
       (cnt : CycleCounters),
       cnt.pump ≤ (check_signals_user symbols st env cnt).1.pump ∧
       cnt.dump ≤ (check_signals_user symbols st env cnt).1.dump) ∧
    (check_signals_user ["AAVEUSDT"] cycleSettingsOn cycleEnvDeliver ⟨5, 5⟩
       = (⟨5, 5⟩, [])) := by
  refine ⟨?_, by decide⟩
  intro symbols st env cnt
  unfold check_signals_user
  split
  · exact ⟨Nat.le_refl _, Nat.le_refl _⟩
  · exact ⟨Nat.le_trans (cyclePass_mono _ _ _ _) (cyclePass_mono _ _ _ _),
      Nat.le_trans (cyclePass_mono _ _ _ _) (cyclePass_mono _ _ _ _)⟩

/-! ## Claim C4 -/

/-- Claim C4 counterexample: a symbol whose flat move misses the 1%
threshold (classified neither Pump nor Dump) nevertheless has its
indicator providers resolved — RSI, funding rate, long/short ratio and
open interest are all fetched — while no delivery happens for it. -/
theorem C4_counterexample :
    (Event.rsiPrimaryAttempt "AAVEUSDT"
       ∈ (process_exchange (fixedPumpParams envFlat 5) ["AAVEUSDT"] 0).events) ∧
    (Event.fundingPrimaryAttempt "AAVEUSDT"
       ∈ (process_exchange (fixedPumpParams envFlat 5) ["AAVEUSDT"] 0).events) ∧
    (Event.lsPrimaryAttempt "AAVEUSDT"
       ∈ (process_exchange (fixedPumpParams envFlat 5) ["AAVEUSDT"] 0).events) ∧
    (Event.openInterestAttempt "AAVEUSDT"
       ∈ (process_exchange (fixedPumpParams envFlat 5) ["AAVEUSDT"] 0).events) ∧
    ((process_exchange (fixedPumpParams envFlat 5) ["AAVEUSDT"] 0).events.countP
        isSendEvent = 0) ∧
    ((process_exchange (fixedPumpParams envFlat 5) ["AAVEUSDT"] 0).deliveredSignals
        = []) := by
  decide

/-- Claim C4 (amended): enrichment precedes classification — for every
symbol whose price fetch succeeds, the full enrichment block runs first
(the event trace starts with the fetch followed by all enrichment
attempts), whether or not the symbol hits the threshold; indicators are
fetched even for symbols that are not classified. -/
theorem C4_amended (p : RunParams) (s : String) (rest : List String)
    (sent : Nat) (d : PriceData) (hlim : sent < p.limit)
    (hf : (p.envOf s).fetch = .ok d) :
    (∃ tail, (process_exchange p (s :: rest) sent).events
        = .fetchPrice s :: (enrichSymbol (p.envOf s) s).2 ++ tail) ∧
    Event.rsiPrimaryAttempt s ∈ (process_exchange p (s :: rest) sent).events ∧
    Event.fundingPrimaryAttempt s ∈ (process_exchange p (s :: rest) sent).events ∧
    Event.lsPrimaryAttempt s ∈ (process_exchange p (s :: rest) sent).events ∧
    Event.openInterestAttempt s ∈ (process_exchange p (s :: rest) sent).events := by
  have hshape : ∃ tail, (process_exchange p (s :: rest) sent).events
      = .fetchPrice s :: (enrichSymbol (p.envOf s) s).2 ++ tail := by
    by_cases hc : (shouldSendPump p d || shouldSendDump p d) = true
    · by_cases hs : (p.envOf s).send = .success
      · refine ⟨.send s :: .delivered s
          :: .persistCounter p.counter_field (sent + 1)
          :: (process_exchange p rest (sent + 1)).events, ?_⟩
        rw [process_exchange_send_success p s rest sent d hlim hf hc hs]
      · refine ⟨[.send s], ?_⟩
        rw [process_exchange_send_fail p s rest sent d hlim hf hc hs]
    · refine ⟨(process_exchange p rest sent).events, ?_⟩
      rw [process_exchange_no_signal p s rest sent d hlim hf
        (Bool.not_eq_true _ ▸ hc)]
  obtain ⟨tail, htail⟩ := hshape
  refine ⟨⟨tail, htail⟩, ?_, ?_, ?_, ?_⟩
  · simp [htail, enrichSymbol_mem_rsiPrimary (p.envOf s) s]
  · simp [htail, enrichSymbol_mem_fundingPrimary (p.envOf s) s]
  · simp [htail, enrichSymbol_mem_lsPrimary (p.envOf s) s]
  · simp [htail, enrichSymbol_mem_openInterest (p.envOf s) s]

/-- Witness for C4_amended at the flat-move fixture. -/
theorem C4_witness :
    (∃ tail, (process_exchange (fixedPumpParams envFlat 5) ["ADAUSDT"] 0).events
        = .fetchPrice "ADAUSDT" :: (enrichSymbol envFlat "ADAUSDT").2 ++ tail) ∧
    Event.rsiPrimaryAttempt "ADAUSDT"
      ∈ (process_exchange (fixedPumpParams envFlat 5) ["ADAUSDT"] 0).events ∧
    Event.fundingPrimaryAttempt "ADAUSDT"
      ∈ (process_exchange (fixedPumpParams envFlat 5) ["ADAUSDT"] 0).events ∧
    Event.lsPrimaryAttempt "ADAUSDT"
      ∈ (process_exchange (fixedPumpParams envFlat 5) ["ADAUSDT"] 0).events ∧
    Event.openInterestAttempt "ADAUSDT"
      ∈ (process_exchange (fixedPumpParams envFlat 5) ["ADAUSDT"] 0).events :=
  C4_amended (fixedPumpParams envFlat 5) "ADAUSDT" [] 0 flatData
    (by decide) rfl

/-! ## Claim C5 -/

/-- Claim C5 counterexample: with two qualifying symbols and a transient
(not chat-not-found) delivery failure on the first, processing does not
continue with the next symbol: the pass stops at once, the second symbol
is never fetched, nothing is delivered and no quota is consumed. -/
theorem C5_counterexample :
    ((process_exchange (fixedPumpParams envSendTransient 5)
        ["AAVEUSDT", "ADAUSDT"] 0).signals_sent = 0) ∧
    (Event.fetchPrice "ADAUSDT"
       ∉ (process_exchange (fixedPumpParams envSendTransient 5)
            ["AAVEUSDT", "ADAUSDT"] 0).events) ∧
    (((fixedPumpParams envSendTransient 5).envOf "AAVEUSDT").send
       = .otherError) ∧
    ((process_exchange (fixedPumpParams envSendTransient 5)
        ["AAVEUSDT", "ADAUSDT"] 0).deliveredSignals = []) := by
  decide

/-- Claim C5 (amended): every delivery failure — recipient-unreachable
(chat-not-found TelegramBadRequest) and transient alike — aborts the
remainder of the current per-exchange, per-category pass immediately with
the counter unchanged and nothing delivered; and a chat-not-found failure
does not abort the whole cycle for the identity: the later passes of the
same cycle still run and can deliver. -/
theorem C5_amended :
    (∀ (p : RunParams) (s : String) (rest : List String) (sent : Nat)
       (d : PriceData), sent < p.limit → (p.envOf s).fetch = .ok d →
       (shouldSendPump p d || shouldSendDump p d) = true →
       (p.envOf s).send ≠ .success →
       process_exchange p (s :: rest) sent
         = ⟨sent, .fetchPrice s :: (enrichSymbol (p.envOf s) s).2 ++ [.send s],
            []⟩) ∧
    ((check_signals_user ["AAVEUSDT"] cycleSettingsOn cycleEnvUnreachablePump
        ⟨0, 0⟩).1 = ⟨0, 2⟩) ∧
    ((check_signals_user ["AAVEUSDT"] cycleSettingsOn cycleEnvUnreachablePump
        ⟨0, 0⟩).2.map (fun r => r.deliveredSignals.length) = [0, 0, 1, 1]) := by
  refine ⟨?_, by decide, by decide⟩
  intro p s rest sent d hlim hf hc hs
  exact process_exchange_send_fail p s rest sent d hlim hf hc hs

/-- Witness for C5_amended: a chat-not-found failure on the first of two
qualifying symbols stops the pass with the counter unchanged. -/
theorem C5_witness :
    process_exchange (fixedPumpParams envSendUnreachable 5)
        ["AAVEUSDT", "ADAUSDT"] 0
      = ⟨0, .fetchPrice "AAVEUSDT" :: (enrichSymbol envSendUnreachable "AAVEUSDT").2
          ++ [.send "AAVEUSDT"], []⟩ :=
  C5_amended.1 (fixedPumpParams envSendUnreachable 5) "AAVEUSDT" ["ADAUSDT"] 0
    pumpData (by decide) rfl (by decide) (by decide)

/-! ## Step-level lemmas for the enrichment block -/

theorem rsiStep_some (e : SymbolEnv) (s : String) (v : Rat)
    (h : e.rsiPrimary = some v) :
    rsiStep e s = (some v, [.rsiPrimaryAttempt s]) := by
  unfold rsiStep
  rw [h]

theorem rsiStep_none (e : SymbolEnv) (s : String) (h : e.rsiPrimary = none) :
    rsiStep e s = (e.rsiFallback, [.rsiPrimaryAttempt s, .rsiFallbackAttempt s]) := by
  unfold rsiStep
  rw [h]

theorem fundingStep_none (e : SymbolEnv) (s : String)
    (h : e.fundingPrimary = none) :
    fundingStep e s
      = (e.fundingFallback, [.fundingPrimaryAttempt s, .fundingFallbackAttempt s]) := by
  unfold fundingStep
  rw [h]

theorem lsStep_none (e : SymbolEnv) (s : String) (h : e.lsPrimary = none) :
    lsStep e s = (e.lsFallback, [.lsPrimaryAttempt s, .lsFallbackAttempt s]) := by
  unfold lsStep
  rw [h]

theorem oiStep_raised (e : SymbolEnv) (s : String)
    (h : e.openInterest = .raised) :
    oiStep e s = ((none, none), [.openInterestAttempt s]) := by
  unfold oiStep
  rw [h]

theorem oiStep_ok_raised (e : SymbolEnv) (s : String) (v : Rat)
    (h1 : e.openInterest = .ok v) (h2 : e.orderbook = .raised) :
    oiStep e s = ((none, none), [.openInterestAttempt s, .orderbookAttempt s]) := by
  unfold oiStep
  rw [h1, h2]

theorem rsiStep_events_sub (e : SymbolEnv) (s : String) :
    ∀ ev ∈ (rsiStep e s).2,
      ev = Event.rsiPrimaryAttempt s ∨ ev = Event.rsiFallbackAttempt s := by
  unfold rsiStep
  cases e.rsiPrimary <;> intro ev hev <;> simp at hev <;> tauto

theorem fundingStep_events_sub (e : SymbolEnv) (s : String) :
    ∀ ev ∈ (fundingStep e s).2,
      ev = Event.fundingPrimaryAttempt s ∨ ev = Event.fundingFallbackAttempt s := by
  unfold fundingStep
  cases e.fundingPrimary <;> intro ev hev <;> simp at hev <;> tauto

theorem lsStep_events_sub (e : SymbolEnv) (s : String) :
    ∀ ev ∈ (lsStep e s).2,
      ev = Event.lsPrimaryAttempt s ∨ ev = Event.lsFallbackAttempt s := by
  unfold lsStep
  cases e.lsPrimary <;> intro ev hev <;> simp at hev <;> tauto

theorem oiStep_events_sub (e : SymbolEnv) (s : String) :
    ∀ ev ∈ (oiStep e s).2,
      ev = Event.openInterestAttempt s ∨ ev = Event.orderbookAttempt s := by
  unfold oiStep
  cases e.openInterest <;> try cases e.orderbook
  all_goals intro ev hev <;> simp at hev <;> tauto

theorem enrich_rsi_no_fallback (e : SymbolEnv) (s : String) (v : Rat)
    (h : e.rsiPrimary = some v) :
    Event.rsiFallbackAttempt s ∉ (enrichSymbol e s).2 := by
  unfold enrichSymbol
  simp only [List.mem_append, not_or]
  refine ⟨⟨⟨?_, ?_⟩, ?_⟩, ?_⟩
  · rw [rsiStep_some e s v h]
    simp
  · intro hmem
    rcases fundingStep_events_sub e s _ hmem with h1 | h1 <;> simp at h1
  · intro hmem
    rcases lsStep_events_sub e s _ hmem with h1 | h1 <;> simp at h1
  · intro hmem
    rcases oiStep_events_sub e s _ hmem with h1 | h1 <;> simp at h1

theorem enrich_no_orderbook_attempt (e : SymbolEnv) (s : String)
    (h : e.openInterest = .raised) :
    Event.orderbookAttempt s ∉ (enrichSymbol e s).2 := by
  unfold enrichSymbol
  simp only [List.mem_append, not_or]
  refine ⟨⟨⟨?_, ?_⟩, ?_⟩, ?_⟩
  · intro hmem
    rcases rsiStep_events_sub e s _ hmem with h1 | h1 <;> simp at h1
  · intro hmem
    rcases fundingStep_events_sub e s _ hmem with h1 | h1 <;> simp at h1
  · intro hmem
    rcases lsStep_events_sub e s _ hmem with h1 | h1 <;> simp at h1
  · rw [oiStep_raised e s h]
    simp

theorem format_signal_omits (sig : Signal) :
    (sig.rsi = none → ∀ v, Line.rsi v ∉ format_signal sig) ∧
    (sig.funding = none → ∀ v, Line.funding v ∉ format_signal sig) ∧
    (sig.long_short = none → ∀ a b, Line.longShort a b ∉ format_signal sig) ∧
    (sig.open_interest = none → ∀ v, Line.openInterest v ∉ format_signal sig) ∧
    (sig.orderbook = none → ∀ v, Line.orderbook v ∉ format_signal sig) := by
  obtain ⟨s, ip, ex, pn, pc, vn, vc, r, f, l, o, b⟩ := sig
  refine ⟨?_, ?_, ?_, ?_, ?_⟩
  · intro h v hmem
    rcases r <;> rcases f <;> rcases l <;> rcases o <;> rcases b <;>
      simp_all [format_signal]
  · intro h v hmem
    rcases r <;> rcases f <;> rcases l <;> rcases o <;> rcases b <;>
      simp_all [format_signal]
  · intro h a b2 hmem
    rcases r <;> rcases f <;> rcases l <;> rcases o <;> rcases b <;>
      simp_all [format_signal]
  · intro h v hmem
    rcases r <;> rcases f <;> rcases l <;> rcases o <;> rcases b <;>
      simp_all [format_signal]
  · intro h v hmem
    rcases r <;> rcases f <;> rcases l <;> rcases o <;> rcases b <;>
      simp_all [format_signal]

/-! ## Claim C8 -/

/-- Claim C8 counterexample: with every indicator provider failing on a
qualifying symbol, the open-interest field is marked unavailable after
exactly one provider attempt — no fallback provider is attempted for it
(nor is the orderbook even queried) — refuting the claim that each of the
five indicator types tries a fallback before the field goes unavailable;
the signal is nevertheless still delivered. -/
theorem C8_counterexample :
    ((process_exchange (fixedPumpParams envAllIndicatorsFail 5)
        ["BTCUSDT"] 0).deliveredSignals.map (fun sig => sig.open_interest)
      = [none]) ∧
    ((process_exchange (fixedPumpParams envAllIndicatorsFail 5)
        ["BTCUSDT"] 0).events.countP
          (fun ev => decide (ev = Event.openInterestAttempt "BTCUSDT")) = 1) ∧
    (Event.orderbookAttempt "BTCUSDT"
       ∉ (process_exchange (fixedPumpParams envAllIndicatorsFail 5)
            ["BTCUSDT"] 0).events) ∧
    ((process_exchange (fixedPumpParams envAllIndicatorsFail 5)
        ["BTCUSDT"] 0).signals_sent = 1) := by
  decide

/-- Claim C8 (amended): RSI, funding rate and long/short ratio each try
the free fallback exactly when the metered primary yields nothing, and the
resolved value is then the fallback's; open interest and orderbook ratio
have no fallback provider — a raised open-interest call leaves both fields
unavailable with the orderbook never attempted, and a raised orderbook
call discards the fetched open interest, leaving both unavailable; a
qualifying symbol is dispatched whatever the enrichment produced, and
formatting omits exactly the unavailable fields. -/
theorem C8_amended :
    (∀ (e : SymbolEnv) (s : String), e.rsiPrimary = none →
       Event.rsiFallbackAttempt s ∈ (enrichSymbol e s).2 ∧
       (enrichSymbol e s).1.rsi = e.rsiFallback) ∧
    (∀ (e : SymbolEnv) (s : String), e.fundingPrimary = none →
       Event.fundingFallbackAttempt s ∈ (enrichSymbol e s).2 ∧
       (enrichSymbol e s).1.funding = e.fundingFallback) ∧
    (∀ (e : SymbolEnv) (s : String), e.lsPrimary = none →
       Event.lsFallbackAttempt s ∈ (enrichSymbol e s).2 ∧
       (enrichSymbol e s).1.long_short = e.lsFallback) ∧
    (∀ (e : SymbolEnv) (s : String) (v : Rat), e.rsiPrimary = some v →
       Event.rsiFallbackAttempt s ∉ (enrichSymbol e s).2) ∧
    (∀ (e : SymbolEnv) (s : String), e.openInterest = .raised →
       (enrichSymbol e s).1.open_interest = none ∧
       (enrichSymbol e s).1.orderbook = none ∧
       Event.orderbookAttempt s ∉ (enrichSymbol e s).2) ∧
    (∀ (e : SymbolEnv) (s : String) (v : Rat),
       e.openInterest = .ok v → e.orderbook = .raised →
       (enrichSymbol e s).1.open_interest = none ∧
       (enrichSymbol e s).1.orderbook = none) ∧
    (∀ (p : RunParams) (s : String) (rest : List String) (sent : Nat)
       (d : PriceData), sent < p.limit → (p.envOf s).fetch = .ok d →
       (shouldSendPump p d || shouldSendDump p d) = true →
       (p.envOf s).send = .success →
       (process_exchange p (s :: rest) sent).deliveredSignals
         = mkSignal p s d (enrichSymbol (p.envOf s) s).1
             :: (process_exchange p rest (sent + 1)).deliveredSignals) ∧
    (∀ sig : Signal,
       (sig.rsi = none → ∀ v, Line.rsi v ∉ format_signal sig) ∧
       (sig.funding = none → ∀ v, Line.funding v ∉ format_signal sig) ∧
       (sig.long_short = none → ∀ a b, Line.longShort a b ∉ format_signal sig) ∧
       (sig.open_interest = none → ∀ v, Line.openInterest v ∉ format_signal sig) ∧
       (sig.orderbook = none → ∀ v, Line.orderbook v ∉ format_signal sig)) := by
  refine ⟨?_, ?_, ?_, ?_, ?_, ?_, ?_, format_signal_omits⟩
  · intro e s h
    unfold enrichSymbol
    rw [rsiStep_none e s h]
    simp
  · intro e s h
    unfold enrichSymbol
    rw [fundingStep_none e s h]
    simp
  · intro e s h
    unfold enrichSymbol
    rw [lsStep_none e s h]
    simp
  · exact enrich_rsi_no_fallback
  · intro e s h
    have ho := oiStep_raised e s h
    exact ⟨by unfold enrichSymbol; rw [ho], by unfold enrichSymbol; rw [ho],
      enrich_no_orderbook_attempt e s h⟩
  · intro e s v h1 h2
    have ho := oiStep_ok_raised e s v h1 h2
    exact ⟨by unfold enrichSymbol; rw [ho], by unfold enrichSymbol; rw [ho]⟩
  · intro p s rest sent d hlim hf hc hs
    rw [process_exchange_send_success p s rest sent d hlim hf hc hs]

/-- Witness for C8_amended at the all-providers-fail fixture: the RSI
fallback is attempted, the open-interest and orderbook fields come back
unavailable with no orderbook attempt, and the qualifying symbol is still
dispatched. -/
theorem C8_witness :
    (Event.rsiFallbackAttempt "BTCUSDT"
        ∈ (enrichSymbol envAllIndicatorsFail "BTCUSDT").2 ∧
     (enrichSymbol envAllIndicatorsFail "BTCUSDT").1.rsi
        = envAllIndicatorsFail.rsiFallback) ∧
    ((enrichSymbol envAllIndicatorsFail "BTCUSDT").1.open_interest = none ∧
     (enrichSymbol envAllIndicatorsFail "BTCUSDT").1.orderbook = none ∧
     Event.orderbookAttempt "BTCUSDT"
        ∉ (enrichSymbol envAllIndicatorsFail "BTCUSDT").2) ∧
    ((process_exchange (fixedPumpParams envAllIndicatorsFail 5)
        ["ETHUSDT"] 0).deliveredSignals
      = mkSignal (fixedPumpParams envAllIndicatorsFail 5) "ETHUSDT" pumpData
          (enrichSymbol envAllIndicatorsFail "ETHUSDT").1
        :: (process_exchange (fixedPumpParams envAllIndicatorsFail 5)
              [] 1).deliveredSignals) := by
  refine ⟨C8_amended.1 envAllIndicatorsFail "BTCUSDT" rfl,
    C8_amended.2.2.2.2.1 envAllIndicatorsFail "BTCUSDT" rfl, ?_⟩
  exact C8_amended.2.2.2.2.2.2.1 (fixedPumpParams envAllIndicatorsFail 5)
    "ETHUSDT" [] 0 pumpData (by decide) rfl (by decide) rfl

/-! ## Claim C6 -/

/-- Claim C6 counterexample: key K is active and bound to numeric identity
1; the different identity 2, presenting the same username string, is
accepted — activate_key returns success and mutates the store, rebinding
the key to user_id 2 — refuting both the rejection and the no-mutation
parts of the claim for a different identity. -/
theorem C6_counterexample :
    ((dbBound.access_keys.find? (fun r => r.access_key = "K")).map
        (fun r => r.user_id) = some (some 1)) ∧
    ((1 : Int) ≠ 2) ∧
    ((activate_key dbBound "K" "alice" 2 "ADMINSECRET" 50 addMonthsModel).1
        = true) ∧
    ((activate_key dbBound "K" "alice" 2 "ADMINSECRET" 50 addMonthsModel).2
        ≠ dbBound) := by
  decide

/-- Claim C6 (amended): re-activation of an active key is keyed on the
stored username string, not on the numeric identity: a submitter whose
username differs from the bound one is rejected and neither store is
mutated; a submitter whose username matches succeeds and only the user_id
binding metadata is rewritten (on the key row and on that username's
settings rows). -/
theorem C6_amended (db : DB) (accessKey username : String) (uid : Int)
    (adminKey : String) (now : Int) (addMonths : Int → Nat → Int)
    (row : KeyRow) (hadmin : accessKey ≠ adminKey)
    (hfind : db.access_keys.find? (fun r => r.access_key = accessKey) = some row)
    (hactive : row.is_active = true) :
    (row.username ≠ some username →
       activate_key db accessKey username uid adminKey now addMonths
         = (false, db)) ∧
    (row.username = some username →
       (activate_key db accessKey username uid adminKey now addMonths).1
         = true ∧
       (activate_key db accessKey username uid adminKey now addMonths).2.access_keys
         = db.access_keys.map (fun r =>
             if r.access_key = accessKey then
               ⟨r.access_key, r.duration_months, r.username, some uid,
                r.activated_at, r.expires_at, r.is_active⟩
             else r) ∧
       (activate_key db accessKey username uid adminKey now addMonths).2.user_settings
         = db.user_settings.map (fun r =>
             if r.username = username then ⟨r.username, uid, r.is_admin⟩
             else r)) := by
  constructor
  · intro hne
    simp [activate_key, hadmin, hfind, hactive, hne]
  · intro heq
    refine ⟨?_, ?_, ?_⟩ <;> simp [activate_key, hadmin, hfind, hactive, heq]

/-- Witness for C6_amended on the bound-key fixture: a different username
is rejected without mutation; the bound username is accepted with only the
user_id metadata rewritten. -/
theorem C6_witness :
    (activate_key dbBound "K" "bob" 2 "ADMINSECRET" 50 addMonthsModel
       = (false, dbBound)) ∧
    ((activate_key dbBound "K" "alice" 2 "ADMINSECRET" 50 addMonthsModel).1
       = true) ∧
    ((activate_key dbBound "K" "alice" 2 "ADMINSECRET" 50 addMonthsModel).2.access_keys
       = dbBound.access_keys.map (fun r =>
           if r.access_key = "K" then
             ⟨r.access_key, r.duration_months, r.username, some 2,
              r.activated_at, r.expires_at, r.is_active⟩
           else r)) ∧
    ((activate_key dbBound "K" "alice" 2 "ADMINSECRET" 50 addMonthsModel).2.user_settings
       = dbBound.user_settings.map (fun r =>
           if r.username = "alice" then ⟨r.username, 2, r.is_admin⟩ else r)) := by
  have hb := C6_amended dbBound "K" "bob" 2 "ADMINSECRET" 50 addMonthsModel
    boundKey (by decide) (by decide) rfl
  have ha := C6_amended dbBound "K" "alice" 2 "ADMINSECRET" 50 addMonthsModel
    boundKey (by decide) (by decide) rfl
  exact ⟨hb.1 (by decide), (ha.2 rfl).1, (ha.2 rfl).2.1, (ha.2 rfl).2.2⟩

/-! ## Claim C10 -/

/-- Claim C10: check_subscription is not read-only — for a non-admin
identity whose bound active key has expires_at at or before the current
time, it returns False and persists is_active=0 on every key bound to
that username, so any later check finds no active key (and an activation
attempt observes the key as inactive); for an identity whose settings row
has is_admin set, it returns True without consulting the access_keys table
at all (any contents give the same result and no mutation). -/
theorem C10_check_subscription (db : DB) (uid : Int) (now : Int)
    (row : SettingsRow)
    (hrow : db.user_settings.find? (fun r => r.user_id = uid) = some row) :
    (row.is_admin = true → ∀ aks : List KeyRow,
       check_subscription ⟨aks, db.user_settings⟩ uid now
         = some (true, ⟨aks, db.user_settings⟩)) ∧
    (∀ k exp, row.is_admin = false →
       db.access_keys.find?
           (fun k2 => k2.username = some row.username && k2.is_active)
         = some k →
       k.expires_at = some exp → exp ≤ now →
       ∃ db2 : DB, check_subscription db uid now = some (false, db2) ∧
         db2.user_settings = db.user_settings ∧
         (∀ r ∈ db2.access_keys, r.username = some row.username →
            r.is_active = false) ∧
         (∀ now2 : Int, check_subscription db2 uid now2 = some (false, db2))) := by
  constructor
  · intro hadm aks
    simp [check_subscription, hrow, hadm]
  · intro k exp hadm hkey hexp hle
    refine ⟨⟨db.access_keys.map (fun r =>
        if r.username = some row.username then
          ⟨r.access_key, r.duration_months, r.username, r.user_id,
           r.activated_at, r.expires_at, false⟩
        else r), db.user_settings⟩, ?_, rfl, ?_, ?_⟩
    · simp [check_subscription, hrow, hadm, hkey, hexp, hle]
    · intro r hr hname
      rcases List.mem_map.mp hr with ⟨r0, hr0, rfl⟩
      by_cases hu : r0.username = some row.username
      · simp [hu]
      · simp only [if_neg hu] at hname ⊢
        exact absurd hname hu
    · intro now2
      have hnone : (db.access_keys.map (fun r =>
          if r.username = some row.username then
            (⟨r.access_key, r.duration_months, r.username, r.user_id,
              r.activated_at, r.expires_at, false⟩ : KeyRow)
          else r)).find?
            (fun k2 => k2.username = some row.username && k2.is_active)
          = none := by
        rw [List.find?_eq_none]
        intro x hx
        rcases List.mem_map.mp hx with ⟨r0, hr0, rfl⟩
        by_cases hu : r0.username = some row.username
        · simp [hu]
        · simp [hu]
      simp [check_subscription, hrow, hadm, hnone]

/-- Witness for C10_check_subscription: the admin fixture row passes with
any key table; the bound key expired at time 100 is deactivated and stays
inactive for every later check. -/
theorem C10_witness :
    (check_subscription dbAdmin 7 0 = some (true, dbAdmin)) ∧
    (∃ db2 : DB, check_subscription dbBound 1 100 = some (false, db2) ∧
       db2.user_settings = dbBound.user_settings ∧
       (∀ r ∈ db2.access_keys, r.username = some "alice" →
          r.is_active = false) ∧
       (∀ now2 : Int, check_subscription db2 1 now2 = some (false, db2))) := by
  have h1 := C10_check_subscription dbAdmin 7 0 ⟨"root", 7, true⟩ (by decide)
  have h2 := C10_check_subscription dbBound 1 100 ⟨"alice", 1, false⟩ (by decide)
  exact ⟨h1.1 rfl dbAdmin.access_keys,
    h2.2 boundKey 100 rfl (by decide) rfl (by decide)⟩

/-! ## Claim C9 -/

/-- Claim C9 counterexample: enter the Type Alerts menu, then the
timeframe value-prompt (both via the FSM's own menu tokens).  The menu
active immediately before the prompt is the Type Alerts keyboard, but Back
displays the hardcoded Dump Alerts keyboard: Back does not restore the
prior menu and does fall back to a hardcoded default. -/
theorem C9_counterexample :
    (runTrace ["💡 Type Alerts"]
       = (Kb.typeAlerts, ⟨some .typeAlerts, none⟩)) ∧
    (runTrace ["💡 Type Alerts", "⏱️ Timeframe"]
       = (Kb.timeframe, ⟨some .typeAlerts, some .timeframe⟩)) ∧
    (runTrace ["💡 Type Alerts", "⏱️ Timeframe", "🔙 Back"]
       = (Kb.dump, ⟨some .typeAlerts, none⟩)) ∧
    (Kb.dump ≠ Kb.typeAlerts) := by
  decide

/-- Claim C9 (amended): Back's target is computed from the stored menu tag
alone through fixed transitions (a value prompt returns to the pump
keyboard when the tag is pump and to the dump keyboard otherwise; Type
Alerts returns to Settings; pump, dump and tier to Main; anything else to
Main).  Restricted to keyboard-button navigation from the post-activation
main menu this coincides with the exact prior menu: the button-reachable
configurations are closed under button presses, every deeper context is
entered only from its unique parent menu, and Back from every non-main
context displays exactly that parent.  Under free-text tokens the
coincidence fails (see the counterexample). -/
theorem C9_amended :
    (fsmInit ∈ buttonReachablePairs) ∧
    (∀ p ∈ buttonReachablePairs, ∀ t ∈ kbButtons p.1,
       fsmStep p t ∈ buttonReachablePairs) ∧
    (∀ p ∈ buttonReachablePairs, p.1 ≠ Kb.main →
       (handle_menu p.2 "🔙 Back").2 = parentKb p.1 p.2) ∧
    (∀ p ∈ buttonReachablePairs, ∀ t ∈ kbButtons p.1,
       kbDepth p.1 < kbDepth (fsmStep p t).1 →
       p.1 = parentKb (fsmStep p t).1 (fsmStep p t).2) := by
  refine ⟨by decide, by decide, by decide, by decide⟩

/-- Witness for C9_amended: pressing Type Alerts on the Settings keyboard
stays within the button-reachable configurations, and Back from the Type
Alerts menu displays its parent, the Settings keyboard. -/
theorem C9_witness :
    (fsmStep (Kb.settings, ⟨none, none⟩) "💡 Type Alerts"
       ∈ buttonReachablePairs) ∧
    ((handle_menu (⟨some .typeAlerts, none⟩ : UserState) "🔙 Back").2
       = parentKb Kb.typeAlerts ⟨some .typeAlerts, none⟩) := by
  constructor
  · exact C9_amended.2.1 (Kb.settings, ⟨none, none⟩) (by decide)
      "💡 Type Alerts" (by decide)
  · exact C9_amended.2.2.1 (Kb.typeAlerts, ⟨some .typeAlerts, none⟩)
      (by decide) (by decide)

end PumpScreener
